import Mathlib

/-!
Shallow embedding of the mcp-atlassian request pipeline
(`src/atlassian/auth/config.py`, `src/atlassian/clients/*.py`,
`src/atlassian/tools/*.py`) and proofs about it.

JSON values are modelled by an inductive `Json`; Python dictionaries are
association lists preserving insertion order; Python exceptions are an
inductive `PyExc` threaded through `Except`; the HTTP transport
(`requests.Session.request`) is an oracle `Http` mapping a fully formed
wire request to either a response or a transport failure.
-/

/-- JSON values (Python objects that `json.dumps` serializes). Numbers are
integers, which covers every number the embedded code constructs. -/
inductive Json where
  | null : Json
  | bool : Bool → Json
  | num : Int → Json
  | str : String → Json
  | arr : List Json → Json
  | obj : List (String × Json) → Json

/-- Python truthiness of a JSON value (`if json_data:`). -/
def jsonTruthy : Json → Bool
  | .null => false
  | .bool b => b
  | .num n => n != 0
  | .str s => s != ""
  | .arr l => !l.isEmpty
  | .obj l => !l.isEmpty

/-- Truthiness of an optional string (Python `None` and `""` are falsy). -/
def otruthy : Option String → Bool
  | none => false
  | some s => s != ""

/-- Truthiness of an optional list (Python `None` and `[]` are falsy). -/
def listTruthy : Option (List String) → Bool
  | some (_ :: _) => true
  | _ => false

/-- Truthiness of an optional JSON value. -/
def optJsonTruthy : Option Json → Bool
  | some j => jsonTruthy j
  | none => false

/-- First-match lookup in an association list (the dict literals built by
the source never repeat a key, so this agrees with Python dict lookup). -/
def lookupKvs : List (String × Json) → String → Option Json
  | [], _ => none
  | (k, v) :: rest, key => if k = key then some v else lookupKvs rest key

/-- Lookup of a key in a JSON object; `none` for non-objects. -/
def objLookup (j : Json) (key : String) : Option Json :=
  match j with
  | .obj kvs => lookupKvs kvs key
  | _ => none

/- ## String utilities (Python `in`, `rstrip('/')`, `lstrip('/')`) -/

/-- The test `needleLeads n h` is true when `n` is an initial segment of `h`. -/
def needleLeads : List Char → List Char → Bool
  | [], _ => true
  | _ :: _, [] => false
  | a :: as, b :: bs => a == b && needleLeads as bs

/-- The test `occursIn n h` is true when `n` occurs contiguously inside `h`. -/
def occursIn (n : List Char) : List Char → Bool
  | [] => n.isEmpty
  | c :: rest => needleLeads n (c :: rest) || occursIn n rest

/-- Python's substring test `needle in hay`. -/
def strContains (hay needle : String) : Bool :=
  occursIn needle.data hay.data

/-- Python `s.rstrip('/')` on character lists. -/
def dropTrailingSlashes (l : List Char) : List Char :=
  (l.reverse.dropWhile (fun c => c == '/')).reverse

/-- Python `s.lstrip('/')` on character lists. -/
def dropLeadingSlashes (l : List Char) : List Char :=
  l.dropWhile (fun c => c == '/')

/-- Embeds `f"{self.config.url.rstrip('/')}/{endpoint.lstrip('/')}"` from
`BaseAtlassianClient._make_request`. -/
def mkUrl (base endpoint : String) : String :=
  String.mk (dropTrailingSlashes base.data) ++ "/" ++
    String.mk (dropLeadingSlashes endpoint.data)

/-- Embeds `','.join(fields)` from `JiraClient.get_issue`. -/
def commaJoin (l : List String) : String :=
  String.intercalate "," l

/- ## The `json.dumps(..., indent=2)` serializer (Python standard library) -/

/-- One lowercase hexadecimal digit, as `json.dumps` emits in escapes. -/
def hexDigit (n : Nat) : Char :=
  if n < 10 then Char.ofNat (48 + n) else Char.ofNat (87 + n % 16)

/-- Four-digit hexadecimal rendering used by `\uXXXX` escapes. -/
def hex4 (n : Nat) : String :=
  String.mk [hexDigit (n / 4096 % 16), hexDigit (n / 256 % 16),
             hexDigit (n / 16 % 16), hexDigit (n % 16)]

/-- Escape of a single character inside a JSON string literal;
`ensureAscii` mirrors the `ensure_ascii` flag of `json.dumps`. -/
def escChar (ensureAscii : Bool) (c : Char) : String :=
  if c = '\"' then "\\\""
  else if c = '\\' then "\\\\"
  else if c = '\n' then "\\n"
  else if c = '\t' then "\\t"
  else if c = '\r' then "\\r"
  else if c.toNat < 32 then "\\u" ++ hex4 c.toNat
  else if ensureAscii && c.toNat ≥ 128 then
    if c.toNat < 65536 then "\\u" ++ hex4 c.toNat
    else
      "\\u" ++ hex4 (55296 + (c.toNat - 65536) / 1024) ++
      "\\u" ++ hex4 (56320 + (c.toNat - 65536) % 1024)
  else String.mk [c]

/-- A JSON string literal with escaping. -/
def escStr (ensureAscii : Bool) (s : String) : String :=
  "\"" ++ String.join (s.data.map (escChar ensureAscii)) ++ "\""

/-- Indentation prefix for nesting level `lvl` under `indent=2`. -/
def pad (lvl : Nat) : String :=
  String.mk (List.replicate (2 * lvl) ' ')

mutual

/-- Embeds `json.dumps(v, indent=2, ensure_ascii=b)`, at nesting level `lvl`. -/
def jsonDumpsVal (b : Bool) (lvl : Nat) : Json → String
  | .null => "null"
  | .bool true => "true"
  | .bool false => "false"
  | .num n => toString n
  | .str s => escStr b s
  | .arr [] => "[]"
  | .arr (x :: xs) =>
      "[\n" ++ jsonDumpsItems b (lvl + 1) (x :: xs) ++ "\n" ++ pad lvl ++ "]"
  | .obj [] => "\x7b\x7d"
  | .obj (kv :: kvs) =>
      "\x7b\n" ++ jsonDumpsFields b (lvl + 1) (kv :: kvs) ++ "\n" ++
        pad lvl ++ "\x7d"

/-- Comma-and-newline separated array items. -/
def jsonDumpsItems (b : Bool) (lvl : Nat) : List Json → String
  | [] => ""
  | [x] => pad lvl ++ jsonDumpsVal b lvl x
  | x :: y :: xs =>
      pad lvl ++ jsonDumpsVal b lvl x ++ ",\n" ++
        jsonDumpsItems b lvl (y :: xs)

/-- Comma-and-newline separated object fields. -/
def jsonDumpsFields (b : Bool) (lvl : Nat) : List (String × Json) → String
  | [] => ""
  | [(k, v)] => pad lvl ++ escStr b k ++ ": " ++ jsonDumpsVal b lvl v
  | (k, v) :: kv :: kvs =>
      pad lvl ++ escStr b k ++ ": " ++ jsonDumpsVal b lvl v ++ ",\n" ++
        jsonDumpsFields b lvl (kv :: kvs)

end

/-- Embeds `json.dumps(j, indent=2, ensure_ascii=b)`. -/
def jsonDumps (b : Bool) (j : Json) : String :=
  jsonDumpsVal b 0 j

/- ## Exceptions (`src/atlassian/utils/exceptions.py`) and HTTP transport -/

/-- The exceptions the embedded code can raise. `authError` is
`AuthenticationError`, `apiError` is `APIError` (message, `status_code`,
`response_data`), and `attrError`/`typeError` stand for the Python
runtime errors (`AttributeError`, `TypeError`) that malformed JSON
responses can trigger in the tools layer. -/
inductive PyExc where
  | authError (msg : String)
  | apiError (msg : String) (statusCode : Option Nat) (responseData : Option Json)
  | attrError (msg : String)
  | typeError (msg : String)

/-- Embeds `str(e)`: the message carried by the exception. -/
def excMsg : PyExc → String
  | .authError m => m
  | .apiError m _ _ => m
  | .attrError m => m
  | .typeError m => m

/-- An HTTP response as seen by `_make_request`: status, raw body, and the
result of the library's `response.json()` (`none` when the body is empty
or not parseable JSON). -/
structure HttpResponse where
  status : Nat
  content : String
  jsonBody : Option Json

/-- Outcome of `requests.Session.request`: a response, or a
transport-level `requests.exceptions.RequestException`. -/
inductive HttpOutcome where
  | resp (r : HttpResponse)
  | netError (msg : String)

/-- A fully formed wire request handed to the HTTP session. -/
structure WireRequest where
  method : String
  url : String
  params : List (String × Json)
  jsonBody : Option Json
  dataBody : Option Json

/-- The HTTP transport oracle. -/
def Http := WireRequest → HttpOutcome

/-- A request as built by a domain-client method, before the base client
joins the endpoint onto the configured base URL. -/
structure Request where
  method : String
  endpoint : String
  params : List (String × Json) := []
  jsonBody : Option Json := none
  dataBody : Option Json := none

/-- The final URL and wire request `_make_request` hands to the session. -/
def toWire (base : String) (r : Request) : WireRequest :=
  { method := r.method, url := mkUrl base r.endpoint,
    params := r.params, jsonBody := r.jsonBody, dataBody := r.dataBody }

/-- Embeds `str(requests.exceptions.HTTPError)` for a failing response; the
exact library text is irrelevant to the embedded control flow, only its
presence in messages matters. -/
def httpErrText (r : HttpResponse) : String :=
  toString r.status ++ " Error"

/-- The 2xx/redirect return path of `_make_request`: an empty body yields
`{}`, a parseable body yields its JSON, and a non-empty unparseable body
makes `response.json()` raise `requests.exceptions.JSONDecodeError`
(a `RequestException` in requests ≥ 2.27), caught by the outer handler. -/
def bodyResult (r : HttpResponse) : Except PyExc Json :=
  if r.content != "" then
    match r.jsonBody with
    | some j => .ok j
    | none => .error (.apiError "Network error: Expecting value" none none)
  else .ok (.obj [])

/-- Embeds `BaseAtlassianClient._make_request`: join the URL, issue the request,
let `raise_for_status` raise on 4xx/5xx, and classify the failure
(401/403 → `AuthenticationError`, other 4xx/5xx → `APIError` with status
and best-effort parsed body, transport failure → `APIError` without
status). -/
def runRequest (http : Http) (base : String) (r : Request) : Except PyExc Json :=
  match http (toWire base r) with
  | .netError m => .error (.apiError ("Network error: " ++ m) none none)
  | .resp resp =>
      if 400 ≤ resp.status ∧ resp.status < 600 then
        if resp.status = 401 then
          .error (.authError ("Authentication failed: " ++ httpErrText resp))
        else if resp.status = 403 then
          .error (.authError ("Access denied: " ++ httpErrText resp))
        else
          .error (.apiError ("API request failed: " ++ httpErrText resp)
            (some resp.status) (some (resp.jsonBody.getD (.obj []))))
      else bodyResult resp

/-- Embeds `BaseAtlassianClient.get`. -/
def getReq (endpoint : String) (params : List (String × Json)) : Request :=
  { method := "GET", endpoint := endpoint, params := params }

/-- Embeds `BaseAtlassianClient.post` with `json_data` only (`kwargs['json']` is
set only when `json_data` is truthy). -/
def postJson (endpoint : String) (data : Json) : Request :=
  { method := "POST", endpoint := endpoint,
    jsonBody := if jsonTruthy data then some data else none }

/-- Embeds `BaseAtlassianClient.put` with `json_data` only. -/
def putJson (endpoint : String) (data : Json) : Request :=
  { method := "PUT", endpoint := endpoint,
    jsonBody := if jsonTruthy data then some data else none }

/-- Embeds `BaseAtlassianClient.delete`. -/
def deleteReq (endpoint : String) : Request :=
  { method := "DELETE", endpoint := endpoint }

/- ## Configuration (`src/atlassian/auth/config.py`) -/

/-- Embeds `JiraConfig`: URL plus optional credential fields. -/
structure JiraConfig where
  url : String
  username : Option String := none
  password : Option String := none
  token : Option String := none
  cloud_id : Option String := none
  oauth_token : Option String := none
  projects_filter : Option String := none

/-- Embeds `JiraConfig.is_auth_configured`:
`bool(url and ((username and password) or (username and token) or oauth_token))`. -/
def JiraConfig.is_auth_configured (c : JiraConfig) : Bool :=
  (c.url != "") &&
    ((otruthy c.username && otruthy c.password ||
      otruthy c.username && otruthy c.token) ||
     otruthy c.oauth_token)

/-- Embeds `JiraConfig.is_cloud`: `"atlassian.net" in self.url if self.url else False`. -/
def JiraConfig.is_cloud (c : JiraConfig) : Bool :=
  if c.url != "" then strContains c.url "atlassian.net" else false

/-- Embeds `ConfluenceConfig`: same shape as `JiraConfig` with a spaces filter. -/
structure ConfluenceConfig where
  url : String
  username : Option String := none
  password : Option String := none
  token : Option String := none
  cloud_id : Option String := none
  oauth_token : Option String := none
  spaces_filter : Option String := none

/-- Embeds `ConfluenceConfig.is_auth_configured`. -/
def ConfluenceConfig.is_auth_configured (c : ConfluenceConfig) : Bool :=
  (c.url != "") &&
    ((otruthy c.username && otruthy c.password ||
      otruthy c.username && otruthy c.token) ||
     otruthy c.oauth_token)

/-- Embeds `ConfluenceConfig.is_cloud`. -/
def ConfluenceConfig.is_cloud (c : ConfluenceConfig) : Bool :=
  if c.url != "" then strContains c.url "atlassian.net" else false

/- ## Authentication setup (`BaseAtlassianClient._setup_auth`) -/

/-- The session auth state after `_setup_auth`. -/
inductive AuthMode where
  | bearer (token : String)
  | basic (username : String) (secret : String)

/-- Embeds `_setup_auth`: bearer when `oauth_token` is truthy, else HTTP Basic
with `token or password`, else `AuthenticationError`. -/
def setupAuth (oauth username password token : Option String) :
    Except PyExc AuthMode :=
  if otruthy oauth then
    .ok (.bearer (oauth.getD ""))
  else if otruthy username && (otruthy password || otruthy token) then
    .ok (.basic (username.getD "")
      (if otruthy token then token.getD "" else password.getD ""))
  else
    .error (.authError "No valid authentication method configured")

/- ## Jira domain client (`src/atlassian/clients/jira_client.py`) -/

/-- A constructed `JiraClient`: the config, the API version segment fixed
in `__init__`, and the session auth from `_setup_auth`. -/
structure JiraClient where
  config : JiraConfig
  api_base : String
  auth : AuthMode

/-- Embeds `JiraClient(config)`: `_setup_auth` (which may raise), then
`api_base = "rest/api/3" if config.is_cloud else "rest/api/2"`. -/
def JiraClient.make (cfg : JiraConfig) : Except PyExc JiraClient := do
  let auth ← setupAuth cfg.oauth_token cfg.username cfg.password cfg.token
  .ok { config := cfg,
        api_base := if cfg.is_cloud then "rest/api/3" else "rest/api/2",
        auth := auth }

/-- The Atlassian-Document-Format rich-text body the Jira client builds
for descriptions and comments. -/
def docBody (text : String) : Json :=
  .obj [("type", .str "doc"), ("version", .num 1),
        ("content", .arr [
          .obj [("type", .str "paragraph"),
                ("content", .arr [
                  .obj [("type", .str "text"), ("text", .str text)]])]])]

/-- Request built by `JiraClient.get_issue`. -/
def JiraClient.get_issue_req (c : JiraClient) (issue_key : String)
    (fields : Option (List String)) (expand : Option String) : Request :=
  getReq (c.api_base ++ "/issue/" ++ issue_key)
    ((if listTruthy fields then
        [("fields", Json.str (commaJoin (fields.getD [])))] else []) ++
     (if otruthy expand then [("expand", Json.str (expand.getD ""))] else []))

/-- Embeds `JiraClient.get_issue`. -/
def JiraClient.get_issue (http : Http) (c : JiraClient) (issue_key : String)
    (fields : Option (List String)) (expand : Option String) :
    Except PyExc Json :=
  runRequest http c.config.url (c.get_issue_req issue_key fields expand)

/-- Request built by `JiraClient.search_issues`. -/
def JiraClient.search_issues_req (c : JiraClient) (jql : String)
    (fields : Option (List String)) (start_at max_results : Int) : Request :=
  postJson (c.api_base ++ "/search")
    (.obj ([("jql", .str jql), ("startAt", .num start_at),
            ("maxResults", .num max_results)] ++
           (if listTruthy fields then
              [("fields", .arr ((fields.getD []).map Json.str))] else [])))

/-- Embeds `JiraClient.search_issues`. -/
def JiraClient.search_issues (http : Http) (c : JiraClient) (jql : String)
    (fields : Option (List String)) (start_at max_results : Int) :
    Except PyExc Json :=
  runRequest http c.config.url (c.search_issues_req jql fields start_at max_results)

/-- Request built by `JiraClient.create_issue`; `description`/`assignee`
being `some` models the key being present in `**kwargs`. -/
def JiraClient.create_issue_req (c : JiraClient) (project_key summary
    issue_type : String) (description assignee : Option String) : Request :=
  postJson (c.api_base ++ "/issue")
    (.obj [("fields", .obj
      ([("project", .obj [("key", .str project_key)]),
        ("summary", .str summary),
        ("issuetype", .obj [("name", .str issue_type)])] ++
       (match description with
        | some d => [("description", docBody d)]
        | none => []) ++
       (match assignee with
        | some a =>
            if c.config.is_cloud then [("assignee", .obj [("id", .str a)])]
            else [("assignee", .obj [("name", .str a)])]
        | none => [])))])

/-- Embeds `JiraClient.create_issue`. -/
def JiraClient.create_issue (http : Http) (c : JiraClient) (project_key
    summary issue_type : String) (description assignee : Option String) :
    Except PyExc Json :=
  runRequest http c.config.url
    (c.create_issue_req project_key summary issue_type description assignee)

/-- Request built by `JiraClient.update_issue`. -/
def JiraClient.update_issue_req (c : JiraClient) (issue_key : String)
    (fields : Json) : Request :=
  putJson (c.api_base ++ "/issue/" ++ issue_key) (.obj [("fields", fields)])

/-- Embeds `JiraClient.update_issue`. -/
def JiraClient.update_issue (http : Http) (c : JiraClient) (issue_key : String)
    (fields : Json) : Except PyExc Json :=
  runRequest http c.config.url (c.update_issue_req issue_key fields)

/-- Request built by `JiraClient.delete_issue`. -/
def JiraClient.delete_issue_req (c : JiraClient) (issue_key : String) : Request :=
  deleteReq (c.api_base ++ "/issue/" ++ issue_key)

/-- Embeds `JiraClient.delete_issue`: `True` on success, `False` when the DELETE
raises `APIError`; any other exception propagates. -/
def JiraClient.delete_issue (http : Http) (c : JiraClient) (issue_key : String) :
    Except PyExc Bool :=
  match runRequest http c.config.url (c.delete_issue_req issue_key) with
  | .ok _ => .ok true
  | .error (.apiError _ _ _) => .ok false
  | .error e => .error e

/-- Request built by `JiraClient.add_comment`. -/
def JiraClient.add_comment_req (c : JiraClient) (issue_key comment : String) :
    Request :=
  postJson (c.api_base ++ "/issue/" ++ issue_key ++ "/comment")
    (.obj [("body", docBody comment)])

/-- Embeds `JiraClient.add_comment`. -/
def JiraClient.add_comment (http : Http) (c : JiraClient)
    (issue_key comment : String) : Except PyExc Json :=
  runRequest http c.config.url (c.add_comment_req issue_key comment)

/-- Request built by `JiraClient.get_transitions`. -/
def JiraClient.get_transitions_req (c : JiraClient) (issue_key : String) :
    Request :=
  getReq (c.api_base ++ "/issue/" ++ issue_key ++ "/transitions") []

/-- Embeds `JiraClient.get_transitions`: `result.get('transitions', [])`. -/
def JiraClient.get_transitions (http : Http) (c : JiraClient)
    (issue_key : String) : Except PyExc Json := do
  let result ← runRequest http c.config.url (c.get_transitions_req issue_key)
  match result with
  | .obj kvs => .ok ((lookupKvs kvs "transitions").getD (.arr []))
  | _ => .error (.attrError "object has no attribute get")

/-- Request built by `JiraClient.transition_issue`. -/
def JiraClient.transition_issue_req (c : JiraClient) (issue_key
    transition_id : String) (fields : Option Json)
    (comment : Option String) : Request :=
  postJson (c.api_base ++ "/issue/" ++ issue_key ++ "/transitions")
    (.obj ([("transition", .obj [("id", .str transition_id)])] ++
           (if optJsonTruthy fields then [("fields", fields.getD .null)] else []) ++
           (if otruthy comment then
              [("update", .obj [("comment", .arr [
                 .obj [("add", .obj [("body", docBody (comment.getD ""))])]])])]
            else [])))

/-- Embeds `JiraClient.transition_issue`. -/
def JiraClient.transition_issue (http : Http) (c : JiraClient) (issue_key
    transition_id : String) (fields : Option Json) (comment : Option String) :
    Except PyExc Json :=
  runRequest http c.config.url
    (c.transition_issue_req issue_key transition_id fields comment)

/-- Request built by `JiraClient.get_projects`. -/
def JiraClient.get_projects_req (c : JiraClient) : Request :=
  getReq (c.api_base ++ "/project") []

/-- Embeds `JiraClient.get_projects`: a non-list response degrades to `[]`. -/
def JiraClient.get_projects (http : Http) (c : JiraClient) :
    Except PyExc Json := do
  let result ← runRequest http c.config.url c.get_projects_req
  match result with
  | .arr l => .ok (.arr l)
  | _ => .ok (.arr [])

/-- Request built by `JiraClient.get_user`: `accountId` when cloud,
`username` when server. -/
def JiraClient.get_user_req (c : JiraClient) (user_id : String) : Request :=
  if c.config.is_cloud then
    getReq (c.api_base ++ "/user") [("accountId", .str user_id)]
  else
    getReq (c.api_base ++ "/user") [("username", .str user_id)]

/-- Embeds `JiraClient.get_user`. -/
def JiraClient.get_user (http : Http) (c : JiraClient) (user_id : String) :
    Except PyExc Json :=
  runRequest http c.config.url (c.get_user_req user_id)

/- ## Confluence domain client (`src/atlassian/clients/confluence_client.py`) -/

/-- A constructed `ConfluenceClient`: `api_base` is always `"rest/api"`. -/
structure ConfluenceClient where
  config : ConfluenceConfig
  api_base : String
  auth : AuthMode

/-- Embeds `ConfluenceClient(config)`. -/
def ConfluenceClient.make (cfg : ConfluenceConfig) :
    Except PyExc ConfluenceClient := do
  let auth ← setupAuth cfg.oauth_token cfg.username cfg.password cfg.token
  .ok { config := cfg, api_base := "rest/api", auth := auth }

/-- The Confluence storage-format body wrapper. -/
def storageBody (content : String) : Json :=
  .obj [("storage", .obj [("value", .str content),
                          ("representation", .str "storage")])]

/-- Request built by `ConfluenceClient.search_content`. -/
def ConfluenceClient.search_content_req (c : ConfluenceClient) (cql : String)
    (limit start : Int) : Request :=
  getReq (c.api_base ++ "/search")
    [("cql", .str cql), ("limit", .num limit), ("start", .num start),
     ("expand", .str "version,space,body.storage")]

/-- Embeds `ConfluenceClient.search_content`. -/
def ConfluenceClient.search_content (http : Http) (c : ConfluenceClient)
    (cql : String) (limit start : Int) : Except PyExc Json :=
  runRequest http c.config.url (c.search_content_req cql limit start)

/-- Request built by `ConfluenceClient.get_page`. -/
def ConfluenceClient.get_page_req (c : ConfluenceClient) (page_id : String)
    (expand : Option String) : Request :=
  getReq (c.api_base ++ "/content/" ++ page_id)
    [("expand", .str (if otruthy expand then expand.getD ""
                      else "body.storage,version,space"))]

/-- Embeds `ConfluenceClient.get_page`. -/
def ConfluenceClient.get_page (http : Http) (c : ConfluenceClient)
    (page_id : String) (expand : Option String) : Except PyExc Json :=
  runRequest http c.config.url (c.get_page_req page_id expand)

/-- Request built by `ConfluenceClient.get_page_by_title`. -/
def ConfluenceClient.get_page_by_title_req (c : ConfluenceClient)
    (space_key title : String) : Request :=
  getReq (c.api_base ++ "/content")
    [("spaceKey", .str space_key), ("title", .str title),
     ("expand", .str "body.storage,version,space")]

/-- Embeds `ConfluenceClient.get_page_by_title`: first element of
`result.get('results', [])`, or `None`. -/
def ConfluenceClient.get_page_by_title (http : Http) (c : ConfluenceClient)
    (space_key title : String) : Except PyExc (Option Json) := do
  let result ← runRequest http c.config.url
    (c.get_page_by_title_req space_key title)
  match result with
  | .obj kvs =>
      match (lookupKvs kvs "results").getD (.arr []) with
      | .arr (x :: _) => .ok (some x)
      | .arr [] => .ok none
      | _ => .error (.typeError "object is not subscriptable")
  | _ => .error (.attrError "object has no attribute get")

/-- Request built by `ConfluenceClient.get_page_children`. -/
def ConfluenceClient.get_page_children_req (c : ConfluenceClient)
    (page_id : String) (limit start : Int) (expand : Option String) : Request :=
  getReq (c.api_base ++ "/content/" ++ page_id ++ "/child/page")
    [("limit", .num limit), ("start", .num start),
     ("expand", .str (if otruthy expand then expand.getD ""
                      else "version,space"))]

/-- Embeds `ConfluenceClient.get_page_children`: `result.get('results', [])`. -/
def ConfluenceClient.get_page_children (http : Http) (c : ConfluenceClient)
    (page_id : String) (limit start : Int) (expand : Option String) :
    Except PyExc Json := do
  let result ← runRequest http c.config.url
    (c.get_page_children_req page_id limit start expand)
  match result with
  | .obj kvs => .ok ((lookupKvs kvs "results").getD (.arr []))
  | _ => .error (.attrError "object has no attribute get")

/-- Request built by `ConfluenceClient.create_page`. -/
def ConfluenceClient.create_page_req (c : ConfluenceClient) (space_key title
    content : String) (parent_id : Option String) : Request :=
  postJson (c.api_base ++ "/content")
    (.obj ([("type", .str "page"), ("title", .str title),
            ("space", .obj [("key", .str space_key)]),
            ("body", storageBody content)] ++
           (if otruthy parent_id then
              [("ancestors", .arr [.obj [("id", .str (parent_id.getD ""))]])]
            else [])))

/-- Embeds `ConfluenceClient.create_page`. -/
def ConfluenceClient.create_page (http : Http) (c : ConfluenceClient)
    (space_key title content : String) (parent_id : Option String) :
    Except PyExc Json :=
  runRequest http c.config.url
    (c.create_page_req space_key title content parent_id)

/-- Request built by `ConfluenceClient.update_page`: the outgoing body
carries `version.number = version + 1`. -/
def ConfluenceClient.update_page_req (c : ConfluenceClient) (page_id title
    content : String) (version : Int) (parent_id : Option String) : Request :=
  putJson (c.api_base ++ "/content/" ++ page_id)
    (.obj ([("id", .str page_id), ("type", .str "page"),
            ("title", .str title), ("body", storageBody content),
            ("version", .obj [("number", .num (version + 1))])] ++
           (if otruthy parent_id then
              [("ancestors", .arr [.obj [("id", .str (parent_id.getD ""))]])]
            else [])))

/-- Embeds `ConfluenceClient.update_page`. -/
def ConfluenceClient.update_page (http : Http) (c : ConfluenceClient)
    (page_id title content : String) (version : Int)
    (parent_id : Option String) : Except PyExc Json :=
  runRequest http c.config.url
    (c.update_page_req page_id title content version parent_id)

/-- Request built by `ConfluenceClient.delete_page`. -/
def ConfluenceClient.delete_page_req (c : ConfluenceClient)
    (page_id : String) : Request :=
  deleteReq (c.api_base ++ "/content/" ++ page_id)

/-- Embeds `ConfluenceClient.delete_page`: `True` on success, `False` when the
DELETE raises `APIError`; any other exception propagates. -/
def ConfluenceClient.delete_page (http : Http) (c : ConfluenceClient)
    (page_id : String) : Except PyExc Bool :=
  match runRequest http c.config.url (c.delete_page_req page_id) with
  | .ok _ => .ok true
  | .error (.apiError _ _ _) => .ok false
  | .error e => .error e

/-- Request built by `ConfluenceClient.get_page_comments`. -/
def ConfluenceClient.get_page_comments_req (c : ConfluenceClient)
    (page_id : String) : Request :=
  getReq (c.api_base ++ "/content/" ++ page_id ++ "/child/comment")
    [("expand", .str "body.storage,version")]

/-- Embeds `ConfluenceClient.get_page_comments`: `result.get('results', [])`. -/
def ConfluenceClient.get_page_comments (http : Http) (c : ConfluenceClient)
    (page_id : String) : Except PyExc Json := do
  let result ← runRequest http c.config.url (c.get_page_comments_req page_id)
  match result with
  | .obj kvs => .ok ((lookupKvs kvs "results").getD (.arr []))
  | _ => .error (.attrError "object has no attribute get")

/-- Request built by `ConfluenceClient.add_comment`. -/
def ConfluenceClient.add_comment_req (c : ConfluenceClient)
    (page_id content : String) : Request :=
  postJson (c.api_base ++ "/content")
    (.obj [("type", .str "comment"),
           ("container", .obj [("id", .str page_id)]),
           ("body", storageBody content)])

/-- Embeds `ConfluenceClient.add_comment`. -/
def ConfluenceClient.add_comment (http : Http) (c : ConfluenceClient)
    (page_id content : String) : Except PyExc Json :=
  runRequest http c.config.url (c.add_comment_req page_id content)

/-- Request built by `ConfluenceClient.get_page_labels`. -/
def ConfluenceClient.get_page_labels_req (c : ConfluenceClient)
    (page_id : String) : Request :=
  getReq (c.api_base ++ "/content/" ++ page_id ++ "/label") []

/-- Embeds `ConfluenceClient.get_page_labels`: `result.get('results', [])`. -/
def ConfluenceClient.get_page_labels (http : Http) (c : ConfluenceClient)
    (page_id : String) : Except PyExc Json := do
  let result ← runRequest http c.config.url (c.get_page_labels_req page_id)
  match result with
  | .obj kvs => .ok ((lookupKvs kvs "results").getD (.arr []))
  | _ => .error (.attrError "object has no attribute get")

/-- Request built by `ConfluenceClient.add_page_label` (the POST). -/
def ConfluenceClient.add_page_label_req (c : ConfluenceClient)
    (page_id label_name : String) : Request :=
  postJson (c.api_base ++ "/content/" ++ page_id ++ "/label")
    (.arr [.obj [("prefix", .str "global"), ("name", .str label_name)]])

/-- Embeds `ConfluenceClient.add_page_label`: POST the one-element label list,
then re-fetch and return the page's labels. -/
def ConfluenceClient.add_page_label (http : Http) (c : ConfluenceClient)
    (page_id label_name : String) : Except PyExc Json := do
  let _ ← runRequest http c.config.url (c.add_page_label_req page_id label_name)
  c.get_page_labels http page_id

/- ## Business layer helpers (`src/atlassian/tools/*.py`) -/

/-- Python `obj.get(key, default)`: only dicts have `.get`; anything else
raises `AttributeError`. -/
def pyGet (j : Json) (key : String) (dflt : Json) : Except PyExc Json :=
  match j with
  | .obj kvs => .ok ((lookupKvs kvs key).getD dflt)
  | _ => .error (.attrError "object has no attribute get")

/-- Iterating a JSON value with `for x in v`: only lists iterate here;
anything else raises `TypeError`. -/
def asList (j : Json) : Except PyExc (List Json) :=
  match j with
  | .arr l => .ok l
  | _ => .error (.typeError "object is not iterable")

/-- A JSON value used where Python arithmetic needs an integer
(`version + 1`); booleans are ints in Python. -/
def pyToInt (j : Json) : Except PyExc Int :=
  match j with
  | .num n => .ok n
  | .bool b => .ok (if b then 1 else 0)
  | _ => .error (.typeError "unsupported operand type for +")

/-- Embeds `fields.split(',') if fields and fields != '*all' else None` from
`JiraTools.get_issue` / `JiraTools.search_issues`. -/
def fieldListOf (fields : Option String) : Option (List String) :=
  match fields with
  | some s => if s != "" && s != "*all" then some (s.splitOn ",") else none
  | none => none

/-- The tokens whose presence makes `ConfluenceTools.search` treat the
query as raw CQL. -/
def cqlTokens : List String :=
  ["=", "~", ">", "<", " AND ", " OR "]

/-- The query-to-CQL conversion inlined in `ConfluenceTools.search`:
wrap a truthy token-free query as `siteSearch ~ "<query>"`, else pass
the query through unchanged. -/
def cqlOfQuery (query : String) : String :=
  if (query != "") && !(cqlTokens.any (fun t => strContains query t)) then
    "siteSearch ~ \"" ++ query ++ "\""
  else query

/-- A keyword argument forwarded only when its value is truthy
(`if description: kwargs['description'] = description`). -/
def toKwarg (o : Option String) : Option String :=
  match o with
  | some s => if s != "" then some s else none
  | none => none

/-- Embeds `JiraTools._get_client`: raise `AuthenticationError` when the config
is not auth-configured, else construct the client. -/
def jiraGetClient (cfg : JiraConfig) : Except PyExc JiraClient :=
  if cfg.is_auth_configured then JiraClient.make cfg
  else .error (.authError
    "Jira authentication not configured. Please set JIRA_URL and authentication credentials.")

/-- Embeds `ConfluenceTools._get_client`. -/
def confluenceGetClient (cfg : ConfluenceConfig) : Except PyExc ConfluenceClient :=
  if cfg.is_auth_configured then ConfluenceClient.make cfg
  else .error (.authError
    "Confluence authentication not configured. Please set CONFLUENCE_URL and authentication credentials.")

/- ## Jira tools (`src/atlassian/tools/jira_tools.py`)

Each public method is embedded as an `_env` function computing the pair
(`ensure_ascii` flag, object passed to `json.dumps`), plus the public
method itself, which serializes that pair; this mirrors the source, where
every return path is a `json.dumps(...)` call. -/

/-- Embeds `JiraTools.get_issue` (envelope). -/
def JiraTools.get_issue_env (http : Http) (cfg : JiraConfig)
    (issue_key : String) (fields expand : Option String) : Bool × Json :=
  match (do
      let client ← jiraGetClient cfg
      let field_list := fieldListOf fields
      client.get_issue http issue_key field_list expand) with
  | .ok issue_data => (false, issue_data)
  | .error e =>
      (true, .obj [("error", .str
          ("Failed to get issue " ++ issue_key ++ ": " ++ excMsg e)),
        ("issue_key", .str issue_key)])

/-- Embeds `JiraTools.get_issue`. -/
def JiraTools.get_issue (http : Http) (cfg : JiraConfig) (issue_key : String)
    (fields expand : Option String) : String :=
  let p := JiraTools.get_issue_env http cfg issue_key fields expand
  jsonDumps p.1 p.2

/-- Embeds `JiraTools.search_issues` (envelope). -/
def JiraTools.search_issues_env (http : Http) (cfg : JiraConfig)
    (jql : String) (fields : Option String) (start_at max_results : Int) :
    Bool × Json :=
  match (do
      let client ← jiraGetClient cfg
      let field_list := fieldListOf fields
      client.search_issues http jql field_list start_at max_results) with
  | .ok search_result => (false, search_result)
  | .error e =>
      (true, .obj [("error", .str ("Failed to search issues: " ++ excMsg e)),
        ("jql", .str jql)])

/-- Embeds `JiraTools.search_issues`. -/
def JiraTools.search_issues (http : Http) (cfg : JiraConfig) (jql : String)
    (fields : Option String) (start_at max_results : Int) : String :=
  let p := JiraTools.search_issues_env http cfg jql fields start_at max_results
  jsonDumps p.1 p.2

/-- Embeds `JiraTools.create_issue` (envelope). -/
def JiraTools.create_issue_env (http : Http) (cfg : JiraConfig)
    (project_key summary issue_type : String)
    (description assignee : Option String) : Bool × Json :=
  match (do
      let client ← jiraGetClient cfg
      client.create_issue http project_key summary issue_type
        (toKwarg description) (toKwarg assignee)) with
  | .ok issue_data =>
      (false, .obj [("message", .str "Issue created successfully"),
        ("issue", issue_data)])
  | .error e =>
      (true, .obj [("error", .str ("Failed to create issue: " ++ excMsg e)),
        ("project_key", .str project_key), ("summary", .str summary)])

/-- Embeds `JiraTools.create_issue`. -/
def JiraTools.create_issue (http : Http) (cfg : JiraConfig)
    (project_key summary issue_type : String)
    (description assignee : Option String) : String :=
  let p := JiraTools.create_issue_env http cfg project_key summary issue_type
    description assignee
  jsonDumps p.1 p.2

/-- Embeds `JiraTools.update_issue` (envelope): PUT the fields, then re-fetch. -/
def JiraTools.update_issue_env (http : Http) (cfg : JiraConfig)
    (issue_key : String) (fields : Json) : Bool × Json :=
  match (do
      let client ← jiraGetClient cfg
      let _ ← client.update_issue http issue_key fields
      client.get_issue http issue_key none none) with
  | .ok updated_issue =>
      (false, .obj [("message", .str "Issue updated successfully"),
        ("issue", updated_issue)])
  | .error e =>
      (true, .obj [("error", .str
          ("Failed to update issue " ++ issue_key ++ ": " ++ excMsg e)),
        ("issue_key", .str issue_key)])

/-- Embeds `JiraTools.update_issue`. -/
def JiraTools.update_issue (http : Http) (cfg : JiraConfig)
    (issue_key : String) (fields : Json) : String :=
  let p := JiraTools.update_issue_env http cfg issue_key fields
  jsonDumps p.1 p.2

/-- Embeds `JiraTools.delete_issue` (envelope): both branches of the `if` and
the handler serialize with default `ensure_ascii`. -/
def JiraTools.delete_issue_env (http : Http) (cfg : JiraConfig)
    (issue_key : String) : Bool × Json :=
  match (do
      let client ← jiraGetClient cfg
      let success ← client.delete_issue http issue_key
      pure (if success then
        (true, Json.obj [("message", .str
          ("Issue " ++ issue_key ++ " has been deleted successfully."))])
      else
        (true, Json.obj [("error", .str
          ("Failed to delete issue " ++ issue_key ++
           ". Issue may not exist or you may not have permission."))]))) with
  | .ok p => p
  | .error e =>
      (true, .obj [("error", .str
          ("Failed to delete issue " ++ issue_key ++ ": " ++ excMsg e)),
        ("issue_key", .str issue_key)])

/-- Embeds `JiraTools.delete_issue`. -/
def JiraTools.delete_issue (http : Http) (cfg : JiraConfig)
    (issue_key : String) : String :=
  let p := JiraTools.delete_issue_env http cfg issue_key
  jsonDumps p.1 p.2

/-- Embeds `JiraTools.add_comment` (envelope). -/
def JiraTools.add_comment_env (http : Http) (cfg : JiraConfig)
    (issue_key comment : String) : Bool × Json :=
  match (do
      let client ← jiraGetClient cfg
      client.add_comment http issue_key comment) with
  | .ok comment_data =>
      (false, .obj [("message", .str "Comment added successfully"),
        ("comment", comment_data)])
  | .error e =>
      (true, .obj [("error", .str
          ("Failed to add comment to issue " ++ issue_key ++ ": " ++ excMsg e)),
        ("issue_key", .str issue_key)])

/-- Embeds `JiraTools.add_comment`. -/
def JiraTools.add_comment (http : Http) (cfg : JiraConfig)
    (issue_key comment : String) : String :=
  let p := JiraTools.add_comment_env http cfg issue_key comment
  jsonDumps p.1 p.2

/-- Embeds `JiraTools.get_transitions` (envelope). -/
def JiraTools.get_transitions_env (http : Http) (cfg : JiraConfig)
    (issue_key : String) : Bool × Json :=
  match (do
      let client ← jiraGetClient cfg
      client.get_transitions http issue_key) with
  | .ok transitions => (false, transitions)
  | .error e =>
      (true, .obj [("error", .str
          ("Failed to get transitions for issue " ++ issue_key ++ ": " ++
           excMsg e)),
        ("issue_key", .str issue_key)])

/-- Embeds `JiraTools.get_transitions`. -/
def JiraTools.get_transitions (http : Http) (cfg : JiraConfig)
    (issue_key : String) : String :=
  let p := JiraTools.get_transitions_env http cfg issue_key
  jsonDumps p.1 p.2

/-- Embeds `JiraTools.transition_issue` (envelope): POST the transition, then
re-fetch the issue. -/
def JiraTools.transition_issue_env (http : Http) (cfg : JiraConfig)
    (issue_key transition_id : String) (fields : Option Json)
    (comment : Option String) : Bool × Json :=
  match (do
      let client ← jiraGetClient cfg
      let _ ← client.transition_issue http issue_key transition_id fields comment
      client.get_issue http issue_key none none) with
  | .ok updated_issue =>
      (false, .obj [("message", .str
          ("Issue " ++ issue_key ++ " transitioned successfully")),
        ("issue", updated_issue)])
  | .error e =>
      (true, .obj [("error", .str
          ("Failed to transition issue " ++ issue_key ++ ": " ++ excMsg e)),
        ("issue_key", .str issue_key),
        ("transition_id", .str transition_id)])

/-- Embeds `JiraTools.transition_issue`. -/
def JiraTools.transition_issue (http : Http) (cfg : JiraConfig)
    (issue_key transition_id : String) (fields : Option Json)
    (comment : Option String) : String :=
  let p := JiraTools.transition_issue_env http cfg issue_key transition_id
    fields comment
  jsonDumps p.1 p.2

/-- Embeds `JiraTools.get_projects` (envelope). -/
def JiraTools.get_projects_env (http : Http) (cfg : JiraConfig) : Bool × Json :=
  match (do
      let client ← jiraGetClient cfg
      client.get_projects http) with
  | .ok projects => (false, projects)
  | .error e =>
      (true, .obj [("error", .str ("Failed to get projects: " ++ excMsg e))])

/-- Embeds `JiraTools.get_projects`. -/
def JiraTools.get_projects (http : Http) (cfg : JiraConfig) : String :=
  let p := JiraTools.get_projects_env http cfg
  jsonDumps p.1 p.2

/-- Embeds `JiraTools.get_user_profile` (envelope). -/
def JiraTools.get_user_profile_env (http : Http) (cfg : JiraConfig)
    (user_identifier : String) : Bool × Json :=
  match (do
      let client ← jiraGetClient cfg
      client.get_user http user_identifier) with
  | .ok user_data =>
      (false, .obj [("success", .bool true), ("user", user_data)])
  | .error e =>
      (true, .obj [("success", .bool false), ("error", .str (excMsg e)),
        ("user_identifier", .str user_identifier)])

/-- Embeds `JiraTools.get_user_profile`. -/
def JiraTools.get_user_profile (http : Http) (cfg : JiraConfig)
    (user_identifier : String) : String :=
  let p := JiraTools.get_user_profile_env http cfg user_identifier
  jsonDumps p.1 p.2

/- ## Confluence tools (`src/atlassian/tools/confluence_tools.py`) -/

/-- The per-result projection inlined in `ConfluenceTools.search` and
(identically) in `ConfluenceTools.get_page_children`. -/
def simplifyContentBrief (r : Json) : Except PyExc Json := do
  let i ← pyGet r "id" .null
  let t ← pyGet r "title" .null
  let ty ← pyGet r "type" .null
  let sp ← pyGet r "space" (.obj [])
  let spName ← pyGet sp "name" .null
  let spKey ← pyGet sp "key" .null
  let links ← pyGet r "_links" (.obj [])
  let url ← pyGet links "webui" .null
  pure (.obj [("id", i), ("title", t), ("type", ty), ("space", spName),
    ("spaceKey", spKey), ("url", url)])

/-- The page projection inlined in `ConfluenceTools.get_page`
(includes `content` and `version`). -/
def simplifyPageFull (p : Json) : Except PyExc Json := do
  let i ← pyGet p "id" .null
  let t ← pyGet p "title" .null
  let ty ← pyGet p "type" .null
  let sp ← pyGet p "space" (.obj [])
  let spName ← pyGet sp "name" .null
  let spKey ← pyGet sp "key" .null
  let body ← pyGet p "body" (.obj [])
  let storage ← pyGet body "storage" (.obj [])
  let value ← pyGet storage "value" (.str "")
  let v ← pyGet p "version" (.obj [])
  let vn ← pyGet v "number" .null
  let links ← pyGet p "_links" (.obj [])
  let url ← pyGet links "webui" .null
  pure (.obj [("id", i), ("title", t), ("type", ty), ("space", spName),
    ("spaceKey", spKey), ("content", value), ("version", vn), ("url", url)])

/-- The page projection inlined in `ConfluenceTools.create_page` and
`ConfluenceTools.update_page` (no `content`). -/
def simplifyPageMeta (p : Json) : Except PyExc Json := do
  let i ← pyGet p "id" .null
  let t ← pyGet p "title" .null
  let ty ← pyGet p "type" .null
  let sp ← pyGet p "space" (.obj [])
  let spName ← pyGet sp "name" .null
  let spKey ← pyGet sp "key" .null
  let v ← pyGet p "version" (.obj [])
  let vn ← pyGet v "number" .null
  let links ← pyGet p "_links" (.obj [])
  let url ← pyGet links "webui" .null
  pure (.obj [("id", i), ("title", t), ("type", ty), ("space", spName),
    ("spaceKey", spKey), ("version", vn), ("url", url)])

/-- The comment projection inlined in `ConfluenceTools.add_comment`. -/
def simplifyComment (c : Json) : Except PyExc Json := do
  let i ← pyGet c "id" .null
  let ty ← pyGet c "type" .null
  let body ← pyGet c "body" (.obj [])
  let storage ← pyGet body "storage" (.obj [])
  let value ← pyGet storage "value" (.str "")
  let v ← pyGet c "version" (.obj [])
  let vn ← pyGet v "number" .null
  pure (.obj [("id", i), ("type", ty), ("content", value), ("version", vn)])

/-- Embeds `current_page.get('version', {}).get('number', 0)` from
`ConfluenceTools.update_page`, coerced to the integer the subsequent
`version + 1` in `ConfluenceClient.update_page` requires (a non-integer
raises `TypeError` there; the embedding surfaces it at extraction, which
lands in the same exception handler). -/
def extractCurrentVersion (page : Json) : Except PyExc Int := do
  let v ← pyGet page "version" (.obj [])
  let n ← pyGet v "number" (.num 0)
  pyToInt n

/-- Embeds `ConfluenceTools.search` (envelope). -/
def ConfluenceTools.search_env (http : Http) (cfg : ConfluenceConfig)
    (query : String) (limit start : Int) : Bool × Json :=
  match (do
      let client ← confluenceGetClient cfg
      let cql_query := cqlOfQuery query
      let search_result ← client.search_content http cql_query limit start
      let results ← pyGet search_result "results" (.arr [])
      let items ← asList results
      let simplified ← items.mapM simplifyContentBrief
      pure (Json.arr simplified)) with
  | .ok simplified => (false, simplified)
  | .error e =>
      (true, .obj [("error", .str
          ("Failed to search Confluence: " ++ excMsg e)),
        ("query", .str query)])

/-- Embeds `ConfluenceTools.search`. -/
def ConfluenceTools.search (http : Http) (cfg : ConfluenceConfig)
    (query : String) (limit start : Int) : String :=
  let p := ConfluenceTools.search_env http cfg query limit start
  jsonDumps p.1 p.2

/-- Embeds `ConfluenceTools.get_page` (envelope): by id, or by title+space, with
the two early error returns of the source. -/
def ConfluenceTools.get_page_env (http : Http) (cfg : ConfluenceConfig)
    (page_id title space_key : Option String) : Bool × Json :=
  match (do
      let client ← confluenceGetClient cfg
      let page_data ←
        if otruthy page_id then
          client.get_page http (page_id.getD "") none
        else if otruthy title && otruthy space_key then do
          let found ← client.get_page_by_title http (space_key.getD "")
            (title.getD "")
          match found with
          | some p =>
              if jsonTruthy p then pure p
              else return (true, Json.obj [("error", .str
                ("Page with title '" ++ title.getD "" ++
                 "' not found in space '" ++ space_key.getD "" ++ "'"))])
          | none => return (true, Json.obj [("error", .str
              ("Page with title '" ++ title.getD "" ++
               "' not found in space '" ++ space_key.getD "" ++ "'"))])
        else
          return (true, Json.obj [("error", .str
            "Either 'page_id' OR both 'title' and 'space_key' must be provided")])
      let simplified ← simplifyPageFull page_data
      pure (false, Json.obj [("metadata", simplified)])) with
  | .ok p => p
  | .error e =>
      (true, .obj [("error", .str ("Failed to get page: " ++ excMsg e))])

/-- Embeds `ConfluenceTools.get_page`. -/
def ConfluenceTools.get_page (http : Http) (cfg : ConfluenceConfig)
    (page_id title space_key : Option String) : String :=
  let p := ConfluenceTools.get_page_env http cfg page_id title space_key
  jsonDumps p.1 p.2

/-- Embeds `ConfluenceTools.create_page` (envelope). -/
def ConfluenceTools.create_page_env (http : Http) (cfg : ConfluenceConfig)
    (space_key title content : String) (parent_id : Option String) :
    Bool × Json :=
  match (do
      let client ← confluenceGetClient cfg
      let page_data ← client.create_page http space_key title content parent_id
      let simplified ← simplifyPageMeta page_data
      pure simplified) with
  | .ok simplified =>
      (false, .obj [("message", .str "Page created successfully"),
        ("page", simplified)])
  | .error e =>
      (true, .obj [("error", .str ("Failed to create page: " ++ excMsg e)),
        ("space_key", .str space_key), ("title", .str title)])

/-- Embeds `ConfluenceTools.create_page`. -/
def ConfluenceTools.create_page (http : Http) (cfg : ConfluenceConfig)
    (space_key title content : String) (parent_id : Option String) : String :=
  let p := ConfluenceTools.create_page_env http cfg space_key title content
    parent_id
  jsonDumps p.1 p.2

/-- The tail of `ConfluenceTools.update_page` once the current version is
known: PUT the update, project, and build either envelope. -/
def ConfluenceTools.update_page_tail (http : Http) (client : ConfluenceClient)
    (page_id title content : String) (parent_id : Option String)
    (current_version : Int) : Bool × Json :=
  match (do
      let page_data ← client.update_page http page_id title content
        current_version parent_id
      let simplified ← simplifyPageMeta page_data
      pure simplified) with
  | .ok simplified =>
      (false, .obj [("message", .str "Page updated successfully"),
        ("page", simplified)])
  | .error e =>
      (true, .obj [("error", .str
          ("Failed to update page " ++ page_id ++ ": " ++ excMsg e)),
        ("page_id", .str page_id)])

/-- Embeds `ConfluenceTools.update_page` (envelope): fetch the page, read its
current version (default 0), then run the update tail. -/
def ConfluenceTools.update_page_env (http : Http) (cfg : ConfluenceConfig)
    (page_id title content : String) (parent_id : Option String) :
    Bool × Json :=
  match (do
      let client ← confluenceGetClient cfg
      let current_page ← client.get_page http page_id none
      let current_version ← extractCurrentVersion current_page
      pure (client, current_version)) with
  | .ok (client, current_version) =>
      ConfluenceTools.update_page_tail http client page_id title content
        parent_id current_version
  | .error e =>
      (true, .obj [("error", .str
          ("Failed to update page " ++ page_id ++ ": " ++ excMsg e)),
        ("page_id", .str page_id)])

/-- Embeds `ConfluenceTools.update_page`. -/
def ConfluenceTools.update_page (http : Http) (cfg : ConfluenceConfig)
    (page_id title content : String) (parent_id : Option String) : String :=
  let p := ConfluenceTools.update_page_env http cfg page_id title content
    parent_id
  jsonDumps p.1 p.2

/-- Embeds `ConfluenceTools.delete_page` (envelope). -/
def ConfluenceTools.delete_page_env (http : Http) (cfg : ConfluenceConfig)
    (page_id : String) : Bool × Json :=
  match (do
      let client ← confluenceGetClient cfg
      let success ← client.delete_page http page_id
      pure (if success then
        (true, Json.obj [("success", .bool true), ("message", .str
          ("Page " ++ page_id ++ " deleted successfully"))])
      else
        (true, Json.obj [("success", .bool false), ("message", .str
          ("Unable to delete page " ++ page_id))]))) with
  | .ok p => p
  | .error e =>
      (true, .obj [("success", .bool false), ("error", .str (excMsg e)),
        ("page_id", .str page_id)])

/-- Embeds `ConfluenceTools.delete_page`. -/
def ConfluenceTools.delete_page (http : Http) (cfg : ConfluenceConfig)
    (page_id : String) : String :=
  let p := ConfluenceTools.delete_page_env http cfg page_id
  jsonDumps p.1 p.2

/-- Embeds `ConfluenceTools.add_comment` (envelope). -/
def ConfluenceTools.add_comment_env (http : Http) (cfg : ConfluenceConfig)
    (page_id content : String) : Bool × Json :=
  match (do
      let client ← confluenceGetClient cfg
      let comment_data ← client.add_comment http page_id content
      let simplified ← simplifyComment comment_data
      pure simplified) with
  | .ok simplified =>
      (false, .obj [("success", .bool true),
        ("message", .str "Comment added successfully"),
        ("comment", simplified)])
  | .error e =>
      (true, .obj [("success", .bool false), ("error", .str (excMsg e)),
        ("page_id", .str page_id)])

/-- Embeds `ConfluenceTools.add_comment`. -/
def ConfluenceTools.add_comment (http : Http) (cfg : ConfluenceConfig)
    (page_id content : String) : String :=
  let p := ConfluenceTools.add_comment_env http cfg page_id content
  jsonDumps p.1 p.2

/-- Embeds `ConfluenceTools.get_page_children` (envelope). -/
def ConfluenceTools.get_page_children_env (http : Http)
    (cfg : ConfluenceConfig) (parent_id : String) (limit start : Int) :
    Bool × Json :=
  match (do
      let client ← confluenceGetClient cfg
      let children ← client.get_page_children http parent_id limit start none
      let items ← asList children
      let simplified ← items.mapM simplifyContentBrief
      pure simplified) with
  | .ok simplified =>
      (false, .obj [("parent_id", .str parent_id),
        ("count", .num (simplified.length : Int)),
        ("results", .arr simplified)])
  | .error e =>
      (true, .obj [("error", .str
          ("Failed to get child pages: " ++ excMsg e)),
        ("parent_id", .str parent_id)])

/-- Embeds `ConfluenceTools.get_page_children`. -/
def ConfluenceTools.get_page_children (http : Http) (cfg : ConfluenceConfig)
    (parent_id : String) (limit start : Int) : String :=
  let p := ConfluenceTools.get_page_children_env http cfg parent_id limit start
  jsonDumps p.1 p.2

/-- Embeds `ConfluenceTools.get_page_labels` (envelope). -/
def ConfluenceTools.get_page_labels_env (http : Http)
    (cfg : ConfluenceConfig) (page_id : String) : Bool × Json :=
  match (do
      let client ← confluenceGetClient cfg
      client.get_page_labels http page_id) with
  | .ok labels => (false, labels)
  | .error e =>
      (true, .obj [("error", .str ("Failed to get labels: " ++ excMsg e)),
        ("page_id", .str page_id)])

/-- Embeds `ConfluenceTools.get_page_labels`. -/
def ConfluenceTools.get_page_labels (http : Http) (cfg : ConfluenceConfig)
    (page_id : String) : String :=
  let p := ConfluenceTools.get_page_labels_env http cfg page_id
  jsonDumps p.1 p.2

/-- Embeds `ConfluenceTools.add_page_label` (envelope). -/
def ConfluenceTools.add_page_label_env (http : Http)
    (cfg : ConfluenceConfig) (page_id label_name : String) : Bool × Json :=
  match (do
      let client ← confluenceGetClient cfg
      client.add_page_label http page_id label_name) with
  | .ok labels => (false, labels)
  | .error e =>
      (true, .obj [("error", .str ("Failed to add label: " ++ excMsg e)),
        ("page_id", .str page_id), ("label_name", .str label_name)])

/-- Embeds `ConfluenceTools.add_page_label`. -/
def ConfluenceTools.add_page_label (http : Http) (cfg : ConfluenceConfig)
    (page_id label_name : String) : String :=
  let p := ConfluenceTools.add_page_label_env http cfg page_id label_name
  jsonDumps p.1 p.2

/- ## Derived predicates used by the statements -/

/-- A config missing both an oauth token and username+secret. -/
def jiraMissingBoth (c : JiraConfig) : Bool :=
  !otruthy c.oauth_token &&
    !(otruthy c.username && (otruthy c.password || otruthy c.token))

/-- A config missing both an oauth token and username+secret. -/
def confluenceMissingBoth (c : ConfluenceConfig) : Bool :=
  !otruthy c.oauth_token &&
    !(otruthy c.username && (otruthy c.password || otruthy c.token))

/-- The envelope pair is an error envelope whose error text contains the
string "authentication". -/
def envHasAuthError (p : Bool × Json) : Prop :=
  ∃ m, objLookup p.2 "error" = some (Json.str m) ∧
    strContains m "authentication" = true

/-- The `AuthenticationError` message raised by `JiraTools._get_client`. -/
def jiraAuthMsg : String :=
  "Jira authentication not configured. Please set JIRA_URL and authentication credentials."

/-- The `AuthenticationError` message raised by
`ConfluenceTools._get_client`. -/
def confluenceAuthMsg : String :=
  "Confluence authentication not configured. Please set CONFLUENCE_URL and authentication credentials."

/-- Spec-worded configuration predicate for the refinement check of C3:
"exactly one of {oauth_token present} or {username together with
(password or api_token) present} holds". -/
def specExactlyOneConfigured (oauth username password token : Option String) :
    Bool :=
  (otruthy oauth && !(otruthy username && (otruthy password || otruthy token)))
  || (!otruthy oauth && (otruthy username && (otruthy password || otruthy token)))

/-- Python `s[:-1] if s.endswith('/') else s`: trim exactly one trailing
slash (spec-worded join for the refinement check of C4). -/
def trimOneTrailingSlash (s : String) : String :=
  match s.data.getLast? with
  | some '/' => String.mk (s.data.dropLast)
  | _ => s

/-- Trim exactly one leading slash (spec-worded, for C4). -/
def trimOneLeadingSlash (s : String) : String :=
  match s.data with
  | '/' :: rest => String.mk rest
  | _ => s

/-- Spec-worded URL join for the refinement check of C4: trim exactly one
trailing slash from the base and one leading slash from the endpoint. -/
def specJoinTrimOne (base endpoint : String) : String :=
  trimOneTrailingSlash base ++ "/" ++ trimOneLeadingSlash endpoint

/-- Whether a request outcome is a raised `APIError`. -/
def raisesAPIError : Except PyExc Json → Bool
  | .error (.apiError _ _ _) => true
  | _ => false

/-- The test `startsWithStr s pre` is true when `pre` is an initial segment of `s`. -/
def startsWithStr (s pre : String) : Bool :=
  needleLeads pre.data s.data

/-- Lookup of a key inside the `fields` object of a request's JSON body. -/
def bodyFieldsLookup (r : Request) (key : String) : Option Json :=
  (r.jsonBody.bind (fun j => objLookup j "fields")).bind
    (fun f => objLookup f key)

/- ## Helper lemmas -/

theorem exceptBind_ok {α β : Type} (a : α) (f : α → Except PyExc β) :
    (Except.ok a >>= f) = f a := rfl

theorem exceptBind_err {α β : Type} (e : PyExc) (f : α → Except PyExc β) :
    ((Except.error e : Except PyExc α) >>= f) = .error e := rfl

theorem occursIn_append_right (n b : List Char) (a : List Char)
    (h : occursIn n b = true) : occursIn n (a ++ b) = true := by
  induction a with
  | nil => simpa using h
  | cons x as ih => simp [occursIn, ih]

theorem strContains_append_right (s t n : String)
    (h : strContains t n = true) : strContains (s ++ t) n = true := by
  simpa [strContains, String.data_append] using
    occursIn_append_right n.data t.data s.data h

theorem needleLeads_refl_append (a b : List Char) :
    needleLeads a (a ++ b) = true := by
  induction a with
  | nil => simp [needleLeads]
  | cons x as ih => simp [needleLeads, ih]

theorem needleLeads_append_both (x y z : List Char) :
    needleLeads (x ++ y) (x ++ z) = needleLeads y z := by
  induction x with
  | nil => simp
  | cons c cs ih => simp [needleLeads, ih]

theorem needleLeads_extend (n h t : List Char)
    (hh : needleLeads n h = true) : needleLeads n (h ++ t) = true := by
  induction n generalizing h with
  | nil => simp [needleLeads]
  | cons c cs ih =>
      cases h with
      | nil => simp [needleLeads] at hh
      | cons d ds =>
          simp only [needleLeads, Bool.and_eq_true] at hh ⊢
          exact ⟨hh.1, by simpa using ih ds hh.2⟩

theorem startsWithStr_extend (s t pre : String)
    (h : startsWithStr s pre = true) : startsWithStr (s ++ t) pre = true := by
  simpa [startsWithStr, String.data_append] using
    needleLeads_extend pre.data s.data t.data h

theorem startsWithStr_chunk (ab tail : String) :
    startsWithStr (ab ++ ("/" ++ tail)) (ab ++ "/") = true := by
  simp only [startsWithStr, String.data_append]
  rw [needleLeads_append_both]
  exact needleLeads_extend _ _ _ (by decide)

theorem authBoolAux : ∀ (url u p t o : Bool),
    (!o && !(u && (p || t))) = true →
    (url && ((u && p || u && t) || o)) = false := by decide

theorem jira_missing_not_configured (c : JiraConfig)
    (h : jiraMissingBoth c = true) : c.is_auth_configured = false :=
  authBoolAux (c.url != "") (otruthy c.username) (otruthy c.password)
    (otruthy c.token) (otruthy c.oauth_token) h

theorem confluence_missing_not_configured (c : ConfluenceConfig)
    (h : confluenceMissingBoth c = true) : c.is_auth_configured = false :=
  authBoolAux (c.url != "") (otruthy c.username) (otruthy c.password)
    (otruthy c.token) (otruthy c.oauth_token) h

/-- C3 (counterexample): the claimed "exactly one of" biconditional fails
on the code. A config with the oauth token AND username+password all
present is configured even though "exactly one" is false, and a config
with an oauth token but an empty URL is NOT configured even though
"exactly one" is true. -/
theorem claim_C3_counterexample :
    JiraConfig.is_auth_configured
      { url := "https://x.atlassian.net", username := some "u",
        password := some "p", oauth_token := some "tok" } = true ∧
    specExactlyOneConfigured (some "tok") (some "u") (some "p") none = false ∧
    JiraConfig.is_auth_configured { url := "", oauth_token := some "tok" } = false ∧
    specExactlyOneConfigured (some "tok") none none none = true := by
  decide

/-- C3 (amended): `is_auth_configured()` returns true iff the URL is
non-empty AND at least one of {oauth_token truthy} or {username together
with (password or api_token) truthy} holds; in particular every config
missing both the oauth token and username+secret is not configured. -/
theorem claim_C3 : ∀ (jc : JiraConfig) (cc : ConfluenceConfig),
    (jc.is_auth_configured = true ↔
      jc.url ≠ "" ∧ (otruthy jc.oauth_token = true ∨
        otruthy jc.username = true ∧
          (otruthy jc.password = true ∨ otruthy jc.token = true))) ∧
    (cc.is_auth_configured = true ↔
      cc.url ≠ "" ∧ (otruthy cc.oauth_token = true ∨
        otruthy cc.username = true ∧
          (otruthy cc.password = true ∨ otruthy cc.token = true))) ∧
    (jiraMissingBoth jc = true → jc.is_auth_configured = false) ∧
    (confluenceMissingBoth cc = true → cc.is_auth_configured = false) := by
  intro jc cc
  refine ⟨?_, ?_, jira_missing_not_configured jc,
    confluence_missing_not_configured cc⟩
  · simp only [JiraConfig.is_auth_configured, Bool.and_eq_true,
      Bool.or_eq_true, bne_iff_ne, ne_eq]
    tauto
  · simp only [ConfluenceConfig.is_auth_configured, Bool.and_eq_true,
      Bool.or_eq_true, bne_iff_ne, ne_eq]
    tauto

theorem claim_C3_witness :
    JiraConfig.is_auth_configured { url := "https://x.atlassian.net" } = false ∧
    ConfluenceConfig.is_auth_configured { url := "https://c.example.com" } = false :=
  ⟨(claim_C3 { url := "https://x.atlassian.net" }
      { url := "https://c.example.com" }).2.2.1 (by decide),
   (claim_C3 { url := "https://x.atlassian.net" }
      { url := "https://c.example.com" }).2.2.2 (by decide)⟩

/-- C4 (counterexample): the URL join strips ALL trailing/leading
slashes (`rstrip('/')`/`lstrip('/')`), not exactly one: on a base URL
ending in a double slash the code and the claimed exactly-one-trim
join disagree. -/
theorem claim_C4_counterexample :
    mkUrl "https://x.atlassian.net//" "rest/api/3/issue/ABC-1" ≠
      specJoinTrimOne "https://x.atlassian.net//" "rest/api/3/issue/ABC-1" ∧
    mkUrl "https://x.atlassian.net//" "rest/api/3/issue/ABC-1" =
      "https://x.atlassian.net/rest/api/3/issue/ABC-1" ∧
    specJoinTrimOne "https://x.atlassian.net//" "rest/api/3/issue/ABC-1" =
      "https://x.atlassian.net//rest/api/3/issue/ABC-1" := by
  refine ⟨by decide, by decide, by decide⟩

/-- C4 (amended): `_make_request` joins by trimming ALL trailing slashes
from the base URL and ALL leading slashes from the endpoint, then joining
with "/"; hence appending a trailing slash to the base or prepending a
leading slash to the endpoint never changes the final URL, and the
claim's concrete example holds. -/
theorem claim_C4 : ∀ base ep : String,
    mkUrl (base ++ "/") ep = mkUrl base ep ∧
    mkUrl base ("/" ++ ep) = mkUrl base ep ∧
    mkUrl "https://x.atlassian.net/" "/rest/api/3/issue/ABC-1" =
      mkUrl "https://x.atlassian.net" "rest/api/3/issue/ABC-1" := by
  intro base ep
  refine ⟨?_, ?_, by decide⟩
  · simp [mkUrl, dropTrailingSlashes, String.data_append,
      List.reverse_append, List.dropWhile]
  · simp [mkUrl, dropLeadingSlashes, String.data_append, List.dropWhile]

/-- C7: `ConfluenceTools.search` wraps a truthy query containing none of
the raw-CQL tokens as `siteSearch ~ "<query>"`, passes any query
containing a token through verbatim, behaves as claimed on the two
concrete examples, and hands exactly that CQL string to the domain
client's `cql` request parameter. -/
theorem claim_C7 : ∀ (q : String) (cl : ConfluenceClient) (lim st : Int),
    (q ≠ "" → cqlTokens.any (fun t => strContains q t) = false →
       cqlOfQuery q = "siteSearch ~ \"" ++ q ++ "\"") ∧
    (cqlTokens.any (fun t => strContains q t) = true → cqlOfQuery q = q) ∧
    cqlOfQuery "hello" = "siteSearch ~ \"hello\"" ∧
    cqlOfQuery "space = DEV" = "space = DEV" ∧
    lookupKvs (cl.search_content_req (cqlOfQuery q) lim st).params "cql" =
      some (.str (cqlOfQuery q)) := by
  intro q cl lim st
  refine ⟨?_, ?_, by decide, by decide, rfl⟩
  · intro h1 h2
    simp [cqlOfQuery, h2, bne_iff_ne, h1]
  · intro h2
    simp [cqlOfQuery, h2]

theorem claim_C7_witness :
    cqlOfQuery "hello" = "siteSearch ~ \"hello\"" ∧
    cqlOfQuery "space = DEV" = "space = DEV" :=
  ⟨((claim_C7 "hello"
      ⟨{ url := "" }, "rest/api", .bearer "t"⟩ 25 0).1) (by decide) (by decide),
   ((claim_C7 "space = DEV"
      ⟨{ url := "" }, "rest/api", .bearer "t"⟩ 25 0).2.1) (by decide)⟩

/-- C9: the `fields` argument of `JiraTools.get_issue`/`search_issues`
is treated as no filter when it is absent, empty, or exactly `"*all"`
(and then no `fields` entry reaches the outgoing request); any other
non-empty string is split on commas. -/
theorem claim_C9 : ∀ (s : String) (cl : JiraClient) (k jql : String)
    (e : Option String) (sa mr : Int),
    fieldListOf none = none ∧
    fieldListOf (some "") = none ∧
    fieldListOf (some "*all") = none ∧
    (s ≠ "" → s ≠ "*all" → fieldListOf (some s) = some (s.splitOn ",")) ∧
    lookupKvs (cl.get_issue_req k none e).params "fields" = none ∧
    objLookup ((cl.search_issues_req jql none sa mr).jsonBody.getD .null)
      "fields" = none := by
  intro s cl k jql e sa mr
  refine ⟨rfl, by decide, by decide, ?_, ?_, rfl⟩
  · intro h1 h2
    simp [fieldListOf, bne_iff_ne, h1, h2]
  · cases he : otruthy e <;>
      simp [JiraClient.get_issue_req, getReq, listTruthy, he, lookupKvs]

theorem claim_C9_witness :
    fieldListOf (some "summary,status") = some ("summary,status".splitOn ",") :=
  (claim_C9 "summary,status" ⟨{ url := "" }, "rest/api/2", .bearer "t"⟩
    "K" "jql" none 0 50).2.2.2.1 (by decide) (by decide)

/-- C10: when the page fetched by `ConfluenceTools.update_page` has no
`version` field, or a `version` object with no `number`, the current
version defaults to 0 and the update request body carries
`version.number = 1`. -/
theorem claim_C10 : ∀ (kvs kvs2 : List (String × Json))
    (cl : ConfluenceClient) (pid title content : String)
    (parent : Option String),
    (lookupKvs kvs "version" = none → extractCurrentVersion (.obj kvs) = .ok 0) ∧
    (lookupKvs kvs "version" = some (.obj kvs2) →
       lookupKvs kvs2 "number" = none →
       extractCurrentVersion (.obj kvs) = .ok 0) ∧
    objLookup ((cl.update_page_req pid title content 0 parent).jsonBody.getD
      .null) "version" = some (.obj [("number", .num 1)]) := by
  intro kvs kvs2 cl pid title content parent
  refine ⟨?_, ?_, rfl⟩
  · intro h
    simp [extractCurrentVersion, pyGet, h, exceptBind_ok, pyToInt, lookupKvs]
  · intro h1 h2
    simp [extractCurrentVersion, pyGet, h1, h2, exceptBind_ok, pyToInt]

theorem claim_C10_witness :
    extractCurrentVersion (.obj [("id", .str "1")]) = .ok 0 ∧
    extractCurrentVersion
      (.obj [("version", .obj [("when", .str "2024")])]) = .ok 0 :=
  ⟨(claim_C10 [("id", .str "1")] [] ⟨{ url := "" }, "rest/api", .bearer "t"⟩
      "1" "T" "C" none).1 rfl,
   (claim_C10 [("version", .obj [("when", .str "2024")])]
      [("when", .str "2024")] ⟨{ url := "" }, "rest/api", .bearer "t"⟩
      "1" "T" "C" none).2.1 rfl rfl⟩

/-- C2 (counterexample): `raise_for_status` raises only for statuses in
[400, 600); a 304 response — non-2xx — raises nothing: `_make_request`
returns the (empty) parsed body instead of raising `APIError`. -/
theorem claim_C2_counterexample :
    raisesAPIError (runRequest (fun _ => .resp ⟨304, "", none⟩)
      "https://x.atlassian.net" (getReq "rest/api/3/issue/ABC-1" [])) = false ∧
    runRequest (fun _ => .resp ⟨304, "", none⟩)
      "https://x.atlassian.net" (getReq "rest/api/3/issue/ABC-1" []) =
      .ok (.obj []) ∧
    ¬ (200 ≤ 304 ∧ 304 < 300) := by
  refine ⟨rfl, rfl, by decide⟩

/-- C2 (amended): for every response, a 401 raises
`AuthenticationError` ("Authentication failed"), a 403 raises
`AuthenticationError` ("Access denied"), any other status in [400, 600)
raises `APIError` carrying that status and the best-effort parsed body
(empty mapping when unparseable), a transport failure raises `APIError`
with no status code, and statuses outside [400, 600) do not raise by
status — the body is returned via the success path. -/
theorem claim_C2 : ∀ (http : Http) (base : String) (req : Request)
    (r : HttpResponse) (m : String),
    (http (toWire base req) = .resp r →
      ((r.status = 401 → runRequest http base req =
          .error (.authError ("Authentication failed: " ++ httpErrText r))) ∧
       (r.status = 403 → runRequest http base req =
          .error (.authError ("Access denied: " ++ httpErrText r))) ∧
       (400 ≤ r.status → r.status < 600 → r.status ≠ 401 → r.status ≠ 403 →
          runRequest http base req = .error (.apiError
            ("API request failed: " ++ httpErrText r) (some r.status)
            (some (r.jsonBody.getD (.obj []))))) ∧
       ((r.status < 400 ∨ 600 ≤ r.status) →
          runRequest http base req = bodyResult r))) ∧
    (http (toWire base req) = .netError m →
      runRequest http base req =
        .error (.apiError ("Network error: " ++ m) none none)) := by
  intro http base req r m
  constructor
  · intro hr
    refine ⟨?_, ?_, ?_, ?_⟩
    · intro h401
      unfold runRequest
      rw [hr]
      dsimp only
      rw [if_pos (show 400 ≤ r.status ∧ r.status < 600 by omega),
        if_pos h401]
    · intro h403
      unfold runRequest
      rw [hr]
      dsimp only
      rw [if_pos (show 400 ≤ r.status ∧ r.status < 600 by omega),
        if_neg (show ¬ r.status = 401 by omega), if_pos h403]
    · intro hge hlt h401 h403
      unfold runRequest
      rw [hr]
      dsimp only
      rw [if_pos (show 400 ≤ r.status ∧ r.status < 600 by omega),
        if_neg h401, if_neg h403]
    · intro hout
      unfold runRequest
      rw [hr]
      dsimp only
      rw [if_neg (show ¬ (400 ≤ r.status ∧ r.status < 600) by omega)]
  · intro hn
    unfold runRequest
    rw [hn]

theorem claim_C2_witness :
    runRequest (fun _ => .resp ⟨401, "", none⟩) "https://x.atlassian.net"
      (getReq "rest/api/3/myself" []) =
      .error (.authError ("Authentication failed: " ++
        httpErrText ⟨401, "", none⟩)) ∧
    runRequest (fun _ => .netError "connection refused")
      "https://x.atlassian.net" (getReq "rest/api/3/myself" []) =
      .error (.apiError ("Network error: " ++ "connection refused")
        none none) :=
  ⟨((claim_C2 (fun _ => .resp ⟨401, "", none⟩) "https://x.atlassian.net"
      (getReq "rest/api/3/myself" []) ⟨401, "", none⟩ "").1 rfl).1 rfl,
   (claim_C2 (fun _ => .netError "connection refused")
      "https://x.atlassian.net" (getReq "rest/api/3/myself" [])
      ⟨0, "", none⟩ "connection refused").2 rfl⟩

theorem jira_is_cloud_eq_contains (c : JiraConfig) :
    c.is_cloud = strContains c.url "atlassian.net" := by
  by_cases h : c.url = ""
  · simp only [JiraConfig.is_cloud, h]
    decide
  · have hb : (c.url != "") = true := by simpa [bne_iff_ne] using h
    simp [JiraConfig.is_cloud, hb]

theorem endpointStarts (ab tail : String) (h : tail.data.head? = some '/') :
    startsWithStr (ab ++ tail) (ab ++ "/") = true := by
  simp only [startsWithStr, String.data_append, needleLeads_append_both]
  cases ht : tail.data with
  | nil => simp [ht] at h
  | cons c rest =>
      rw [ht] at h
      simp only [List.head?, Option.some.injEq] at h
      subst h
      simp [needleLeads]

/-- C5: a config whose URL contains "atlassian.net" is cloud, the Jira
client is constructed with API segment `rest/api/3`, every endpoint it
issues starts with that segment, and `create_issue` addresses the
assignee as `{"id": ...}`; any other config is server, gets
`rest/api/2`, and addresses the assignee as `{"name": ...}`. -/
theorem claim_C5 : ∀ (cfg : JiraConfig) (cl : JiraClient),
    JiraClient.make cfg = .ok cl →
    (cfg.is_cloud = strContains cfg.url "atlassian.net") ∧
    (strContains cfg.url "atlassian.net" = true →
       cfg.is_cloud = true ∧ cl.api_base = "rest/api/3" ∧
       (∀ pk sm it a : String, ∀ d : Option String,
          bodyFieldsLookup (cl.create_issue_req pk sm it d (some a))
            "assignee" = some (.obj [("id", .str a)]))) ∧
    (strContains cfg.url "atlassian.net" = false →
       cfg.is_cloud = false ∧ cl.api_base = "rest/api/2" ∧
       (∀ pk sm it a : String, ∀ d : Option String,
          bodyFieldsLookup (cl.create_issue_req pk sm it d (some a))
            "assignee" = some (.obj [("name", .str a)]))) ∧
    (∀ (k jql pk sm it tid uid cm : String) (f : Option (List String))
       (e d a cmt : Option String) (fs : Option Json) (ufields : Json)
       (sa mr : Int),
       startsWithStr (cl.get_issue_req k f e).endpoint
         (cl.api_base ++ "/") = true ∧
       startsWithStr (cl.search_issues_req jql f sa mr).endpoint
         (cl.api_base ++ "/") = true ∧
       startsWithStr (cl.create_issue_req pk sm it d a).endpoint
         (cl.api_base ++ "/") = true ∧
       startsWithStr (cl.update_issue_req k ufields).endpoint
         (cl.api_base ++ "/") = true ∧
       startsWithStr (cl.delete_issue_req k).endpoint
         (cl.api_base ++ "/") = true ∧
       startsWithStr (cl.add_comment_req k cm).endpoint
         (cl.api_base ++ "/") = true ∧
       startsWithStr (cl.get_transitions_req k).endpoint
         (cl.api_base ++ "/") = true ∧
       startsWithStr (cl.transition_issue_req k tid fs cmt).endpoint
         (cl.api_base ++ "/") = true ∧
       startsWithStr cl.get_projects_req.endpoint
         (cl.api_base ++ "/") = true ∧
       startsWithStr (cl.get_user_req uid).endpoint
         (cl.api_base ++ "/") = true) := by
  intro cfg cl hmk
  unfold JiraClient.make at hmk
  cases hs : setupAuth cfg.oauth_token cfg.username cfg.password cfg.token with
  | error e => rw [hs] at hmk; simp [exceptBind_err] at hmk
  | ok am =>
      rw [hs] at hmk
      simp only [exceptBind_ok, Except.ok.injEq] at hmk
      subst hmk
      refine ⟨jira_is_cloud_eq_contains cfg, ?_, ?_, ?_⟩
      · intro hc
        have hic : cfg.is_cloud = true := by
          rw [jira_is_cloud_eq_contains cfg, hc]
        refine ⟨hic, by simp [hic], ?_⟩
        intro pk sm it a d
        cases d with
        | none =>
            simp [JiraClient.create_issue_req, postJson, bodyFieldsLookup,
              hic, objLookup, lookupKvs, jsonTruthy]
        | some dv =>
            simp [JiraClient.create_issue_req, postJson, bodyFieldsLookup,
              hic, objLookup, lookupKvs, jsonTruthy]
      · intro hc
        have hic : cfg.is_cloud = false := by
          rw [jira_is_cloud_eq_contains cfg, hc]
        refine ⟨hic, by simp [hic], ?_⟩
        intro pk sm it a d
        cases d with
        | none =>
            simp [JiraClient.create_issue_req, postJson, bodyFieldsLookup,
              hic, objLookup, lookupKvs, jsonTruthy]
        | some dv =>
            simp [JiraClient.create_issue_req, postJson, bodyFieldsLookup,
              hic, objLookup, lookupKvs, jsonTruthy]
      · intro k jql pk sm it tid uid cm f e d a cmt fs ufields sa mr
        dsimp only [JiraClient.get_issue_req, JiraClient.search_issues_req,
          JiraClient.create_issue_req, JiraClient.update_issue_req,
          JiraClient.delete_issue_req, JiraClient.add_comment_req,
          JiraClient.get_transitions_req, JiraClient.transition_issue_req,
          JiraClient.get_projects_req, JiraClient.get_user_req,
          getReq, postJson, putJson, deleteReq]
        refine ⟨?_, ?_, ?_, ?_, ?_, ?_, ?_, ?_, ?_, ?_⟩
        · exact startsWithStr_extend _ _ _
            (endpointStarts _ "/issue/" (by decide))
        · exact endpointStarts _ "/search" (by decide)
        · exact endpointStarts _ "/issue" (by decide)
        · exact startsWithStr_extend _ _ _
            (endpointStarts _ "/issue/" (by decide))
        · exact startsWithStr_extend _ _ _
            (endpointStarts _ "/issue/" (by decide))
        · exact startsWithStr_extend _ _ _ (startsWithStr_extend _ _ _
            (endpointStarts _ "/issue/" (by decide)))
        · exact startsWithStr_extend _ _ _ (startsWithStr_extend _ _ _
            (endpointStarts _ "/issue/" (by decide)))
        · exact startsWithStr_extend _ _ _ (startsWithStr_extend _ _ _
            (endpointStarts _ "/issue/" (by decide)))
        · exact endpointStarts _ "/project" (by decide)
        · cases hcl : cfg.is_cloud <;>
            simp only [hcl, Bool.false_eq_true, if_false, if_true] <;>
            exact endpointStarts _ "/user" (by decide)

theorem claim_C5_witness :
    (⟨{ url := "https://x.atlassian.net", oauth_token := some "tok" },
       "rest/api/3", .bearer "tok"⟩ : JiraClient).api_base = "rest/api/3" ∧
    bodyFieldsLookup
      ((⟨{ url := "https://x.atlassian.net", oauth_token := some "tok" },
         "rest/api/3", .bearer "tok"⟩ : JiraClient).create_issue_req
        "PROJ" "S" "Task" none (some "u123")) "assignee" =
      some (.obj [("id", .str "u123")]) ∧
    (⟨{ url := "https://jira.example.com", oauth_token := some "tok" },
       "rest/api/2", .bearer "tok"⟩ : JiraClient).api_base = "rest/api/2" ∧
    bodyFieldsLookup
      ((⟨{ url := "https://jira.example.com", oauth_token := some "tok" },
         "rest/api/2", .bearer "tok"⟩ : JiraClient).create_issue_req
        "PROJ" "S" "Task" none (some "u123")) "assignee" =
      some (.obj [("name", .str "u123")]) := by
  have hc := claim_C5 { url := "https://x.atlassian.net", oauth_token := some "tok" }
    ⟨{ url := "https://x.atlassian.net", oauth_token := some "tok" },
      "rest/api/3", .bearer "tok"⟩ rfl
  have hs := claim_C5 { url := "https://jira.example.com", oauth_token := some "tok" }
    ⟨{ url := "https://jira.example.com", oauth_token := some "tok" },
      "rest/api/2", .bearer "tok"⟩ rfl
  exact ⟨(hc.2.1 (by decide)).2.1,
    (hc.2.1 (by decide)).2.2 "PROJ" "S" "Task" "u123" none,
    (hs.2.2.1 (by decide)).2.1,
    (hs.2.2.1 (by decide)).2.2 "PROJ" "S" "Task" "u123" none⟩

/-- C6: the body built by `ConfluenceClient.update_page` always carries
`version.number = version + 1`; the fetched page's `version.number` is
what `ConfluenceTools.update_page` extracts and passes, so the business
layer's behavior factors through the update request at that version. -/
theorem claim_C6 : ∀ (cl : ConfluenceClient) (pid title content : String)
    (version : Int) (parent : Option String) (http : Http)
    (cfg : ConfluenceConfig) (page : Json) (v : Int),
    objLookup ((cl.update_page_req pid title content version parent).jsonBody.getD
      .null) "version" = some (.obj [("number", .num (version + 1))]) ∧
    (∀ (kvs : List (String × Json)) (n : Int),
       lookupKvs kvs "version" = some (.obj [("number", .num n)]) →
       extractCurrentVersion (.obj kvs) = .ok n) ∧
    (confluenceGetClient cfg = .ok cl →
     ConfluenceClient.get_page http cl pid none = .ok page →
     extractCurrentVersion page = .ok v →
     ConfluenceTools.update_page_env http cfg pid title content parent =
       ConfluenceTools.update_page_tail http cl pid title content parent v) := by
  intro cl pid title content version parent http cfg page v
  refine ⟨rfl, ?_, ?_⟩
  · intro kvs n h
    simp only [extractCurrentVersion, pyGet, h, pyToInt, exceptBind_ok]
    rfl
  · intro h1 h2 h3
    unfold ConfluenceTools.update_page_env
    rw [h1]
    simp only [exceptBind_ok]
    rw [h2]
    simp only [exceptBind_ok]
    rw [h3]
    rfl

theorem claim_C6_witness :
    objLookup (((⟨{ url := "https://c.atlassian.net", oauth_token := some "t" },
        "rest/api", .bearer "t"⟩ : ConfluenceClient).update_page_req
        "42" "T" "C" 3 none).jsonBody.getD .null) "version" =
      some (.obj [("number", .num 4)]) ∧
    extractCurrentVersion (.obj [("version", .obj [("number", .num 3)])]) =
      .ok 3 ∧
    ConfluenceTools.update_page_env
      (fun _ => .resp ⟨200, "x",
        some (.obj [("version", .obj [("number", .num 3)])])⟩)
      { url := "https://c.atlassian.net", oauth_token := some "t" }
      "42" "T" "C" none =
    ConfluenceTools.update_page_tail
      (fun _ => .resp ⟨200, "x",
        some (.obj [("version", .obj [("number", .num 3)])])⟩)
      ⟨{ url := "https://c.atlassian.net", oauth_token := some "t" },
        "rest/api", .bearer "t"⟩ "42" "T" "C" none 3 := by
  have h := claim_C6
    ⟨{ url := "https://c.atlassian.net", oauth_token := some "t" },
      "rest/api", .bearer "t"⟩ "42" "T" "C" 3 none
    (fun _ => .resp ⟨200, "x",
      some (.obj [("version", .obj [("number", .num 3)])])⟩)
    { url := "https://c.atlassian.net", oauth_token := some "t" }
    (.obj [("version", .obj [("number", .num 3)])]) 3
  exact ⟨h.1, h.2.1 [("version", .obj [("number", .num 3)])] 3 rfl,
    h.2.2 rfl rfl rfl⟩

/-- C8: a DELETE that raises `APIError` makes `JiraClient.delete_issue`
and `ConfluenceClient.delete_page` return `false` (and a successful
DELETE returns `true`); the business layer then returns a failure
envelope, and every business-layer delete returns a serialized JSON
string rather than raising. -/
theorem claim_C8 : ∀ (http : Http) (jcl : JiraClient) (ccl : ConfluenceClient)
    (jc : JiraConfig) (cc : ConfluenceConfig) (k pid m : String)
    (s : Option Nat) (d : Option Json) (j : Json),
    (runRequest http jcl.config.url (jcl.delete_issue_req k) =
        .error (.apiError m s d) → jcl.delete_issue http k = .ok false) ∧
    (runRequest http jcl.config.url (jcl.delete_issue_req k) = .ok j →
        jcl.delete_issue http k = .ok true) ∧
    (runRequest http ccl.config.url (ccl.delete_page_req pid) =
        .error (.apiError m s d) → ccl.delete_page http pid = .ok false) ∧
    (runRequest http ccl.config.url (ccl.delete_page_req pid) = .ok j →
        ccl.delete_page http pid = .ok true) ∧
    (jiraGetClient jc = .ok jcl → jcl.delete_issue http k = .ok false →
       JiraTools.delete_issue_env http jc k = (true, .obj [("error", .str
         ("Failed to delete issue " ++ k ++
          ". Issue may not exist or you may not have permission."))])) ∧
    (confluenceGetClient cc = .ok ccl → ccl.delete_page http pid = .ok false →
       ConfluenceTools.delete_page_env http cc pid = (true, .obj
         [("success", .bool false),
          ("message", .str ("Unable to delete page " ++ pid))])) ∧
    (∃ b j2, JiraTools.delete_issue http jc k = jsonDumps b j2) ∧
    (∃ b j2, ConfluenceTools.delete_page http cc pid = jsonDumps b j2) := by
  intro http jcl ccl jc cc k pid m s d j
  refine ⟨?_, ?_, ?_, ?_, ?_, ?_, ⟨_, _, rfl⟩, ⟨_, _, rfl⟩⟩
  · intro h; unfold JiraClient.delete_issue; rw [h]
  · intro h; unfold JiraClient.delete_issue; rw [h]
  · intro h; unfold ConfluenceClient.delete_page; rw [h]
  · intro h; unfold ConfluenceClient.delete_page; rw [h]
  · intro h1 h2
    unfold JiraTools.delete_issue_env
    rw [h1]
    simp only [exceptBind_ok]
    rw [h2]
    rfl
  · intro h1 h2
    unfold ConfluenceTools.delete_page_env
    rw [h1]
    simp only [exceptBind_ok]
    rw [h2]
    rfl

theorem claim_C8_witness :
    (⟨{ url := "https://x.atlassian.net", oauth_token := some "t" },
       "rest/api/3", .bearer "t"⟩ : JiraClient).delete_issue
      (fun _ => .resp ⟨404, "", none⟩) "ABC-1" = .ok false ∧
    JiraTools.delete_issue_env (fun _ => .resp ⟨404, "", none⟩)
      { url := "https://x.atlassian.net", oauth_token := some "t" } "ABC-1" =
      (true, .obj [("error", .str
        ("Failed to delete issue " ++ "ABC-1" ++
         ". Issue may not exist or you may not have permission."))]) ∧
    (⟨{ url := "https://c.atlassian.net", oauth_token := some "t" },
       "rest/api", .bearer "t"⟩ : ConfluenceClient).delete_page
      (fun _ => .resp ⟨404, "", none⟩) "42" = .ok false ∧
    ConfluenceTools.delete_page_env (fun _ => .resp ⟨404, "", none⟩)
      { url := "https://c.atlassian.net", oauth_token := some "t" } "42" =
      (true, .obj [("success", .bool false),
        ("message", .str ("Unable to delete page " ++ "42"))]) := by
  have h := claim_C8 (fun _ => .resp ⟨404, "", none⟩)
    ⟨{ url := "https://x.atlassian.net", oauth_token := some "t" },
      "rest/api/3", .bearer "t"⟩
    ⟨{ url := "https://c.atlassian.net", oauth_token := some "t" },
      "rest/api", .bearer "t"⟩
    { url := "https://x.atlassian.net", oauth_token := some "t" }
    { url := "https://c.atlassian.net", oauth_token := some "t" }
    "ABC-1" "42" ("API request failed: " ++ httpErrText ⟨404, "", none⟩)
    (some 404) (some (.obj [])) (.obj [])
  have hj : (⟨{ url := "https://x.atlassian.net", oauth_token := some "t" },
      "rest/api/3", .bearer "t"⟩ : JiraClient).delete_issue
      (fun _ => .resp ⟨404, "", none⟩) "ABC-1" = .ok false := h.1 rfl
  have hcf : (⟨{ url := "https://c.atlassian.net", oauth_token := some "t" },
      "rest/api", .bearer "t"⟩ : ConfluenceClient).delete_page
      (fun _ => .resp ⟨404, "", none⟩) "42" = .ok false := h.2.2.1 rfl
  exact ⟨hj, h.2.2.2.2.1 rfl hj, hcf, h.2.2.2.2.2.1 rfl hcf⟩

theorem containsAuth_base_j : strContains jiraAuthMsg "authentication" = true := by
  decide

theorem containsAuth_base_c :
    strContains confluenceAuthMsg "authentication" = true := by
  decide

theorem containsAuth_j (pre : String) :
    strContains (pre ++ jiraAuthMsg) "authentication" = true :=
  strContains_append_right pre jiraAuthMsg _ containsAuth_base_j

theorem containsAuth_c (pre : String) :
    strContains (pre ++ confluenceAuthMsg) "authentication" = true :=
  strContains_append_right pre confluenceAuthMsg _ containsAuth_base_c

theorem jiraGetClient_missing (cfg : JiraConfig)
    (h : jiraMissingBoth cfg = true) :
    jiraGetClient cfg = .error (.authError jiraAuthMsg) := by
  unfold jiraGetClient
  rw [jira_missing_not_configured cfg h]
  rfl

theorem confluenceGetClient_missing (cfg : ConfluenceConfig)
    (h : confluenceMissingBoth cfg = true) :
    confluenceGetClient cfg = .error (.authError confluenceAuthMsg) := by
  unfold confluenceGetClient
  rw [confluence_missing_not_configured cfg h]
  rfl

/-- C1: every public business-layer operation (all ten `JiraTools` and
all nine `ConfluenceTools` methods) returns a `json.dumps`-serialized
string for every input and oracle behavior — never an exception — and
for every configuration missing both an oauth token and
username+secret, the serialized envelope is an error envelope whose
error text contains the string "authentication". -/
theorem claim_C1 : ∀ (http : Http) (jc : JiraConfig) (cc : ConfluenceConfig)
    (k jql pk sm it tid uid pid lbl q cm spc ttl ct : String)
    (fO eO dO aO cmtO parO pidO ttlO spO : Option String)
    (ufields : Json) (tfs : Option Json) (sa mr lim st : Int),
    ((∃ b j, JiraTools.get_issue http jc k fO eO = jsonDumps b j) ∧
     (∃ b j, JiraTools.search_issues http jc jql fO sa mr = jsonDumps b j) ∧
     (∃ b j, JiraTools.create_issue http jc pk sm it dO aO = jsonDumps b j) ∧
     (∃ b j, JiraTools.update_issue http jc k ufields = jsonDumps b j) ∧
     (∃ b j, JiraTools.delete_issue http jc k = jsonDumps b j) ∧
     (∃ b j, JiraTools.add_comment http jc k cm = jsonDumps b j) ∧
     (∃ b j, JiraTools.get_transitions http jc k = jsonDumps b j) ∧
     (∃ b j, JiraTools.transition_issue http jc k tid tfs cmtO = jsonDumps b j) ∧
     (∃ b j, JiraTools.get_projects http jc = jsonDumps b j) ∧
     (∃ b j, JiraTools.get_user_profile http jc uid = jsonDumps b j) ∧
     (∃ b j, ConfluenceTools.search http cc q lim st = jsonDumps b j) ∧
     (∃ b j, ConfluenceTools.get_page http cc pidO ttlO spO = jsonDumps b j) ∧
     (∃ b j, ConfluenceTools.create_page http cc spc ttl ct parO = jsonDumps b j) ∧
     (∃ b j, ConfluenceTools.update_page http cc pid ttl ct parO = jsonDumps b j) ∧
     (∃ b j, ConfluenceTools.delete_page http cc pid = jsonDumps b j) ∧
     (∃ b j, ConfluenceTools.add_comment http cc pid ct = jsonDumps b j) ∧
     (∃ b j, ConfluenceTools.get_page_children http cc pid lim st = jsonDumps b j) ∧
     (∃ b j, ConfluenceTools.get_page_labels http cc pid = jsonDumps b j) ∧
     (∃ b j, ConfluenceTools.add_page_label http cc pid lbl = jsonDumps b j)) ∧
    (jiraMissingBoth jc = true →
      envHasAuthError (JiraTools.get_issue_env http jc k fO eO) ∧
      envHasAuthError (JiraTools.search_issues_env http jc jql fO sa mr) ∧
      envHasAuthError (JiraTools.create_issue_env http jc pk sm it dO aO) ∧
      envHasAuthError (JiraTools.update_issue_env http jc k ufields) ∧
      envHasAuthError (JiraTools.delete_issue_env http jc k) ∧
      envHasAuthError (JiraTools.add_comment_env http jc k cm) ∧
      envHasAuthError (JiraTools.get_transitions_env http jc k) ∧
      envHasAuthError (JiraTools.transition_issue_env http jc k tid tfs cmtO) ∧
      envHasAuthError (JiraTools.get_projects_env http jc) ∧
      envHasAuthError (JiraTools.get_user_profile_env http jc uid)) ∧
    (confluenceMissingBoth cc = true →
      envHasAuthError (ConfluenceTools.search_env http cc q lim st) ∧
      envHasAuthError (ConfluenceTools.get_page_env http cc pidO ttlO spO) ∧
      envHasAuthError (ConfluenceTools.create_page_env http cc spc ttl ct parO) ∧
      envHasAuthError (ConfluenceTools.update_page_env http cc pid ttl ct parO) ∧
      envHasAuthError (ConfluenceTools.delete_page_env http cc pid) ∧
      envHasAuthError (ConfluenceTools.add_comment_env http cc pid ct) ∧
      envHasAuthError (ConfluenceTools.get_page_children_env http cc pid lim st) ∧
      envHasAuthError (ConfluenceTools.get_page_labels_env http cc pid) ∧
      envHasAuthError (ConfluenceTools.add_page_label_env http cc pid lbl)) := by
  intro http jc cc k jql pk sm it tid uid pid lbl q cm spc ttl ct
    fO eO dO aO cmtO parO pidO ttlO spO ufields tfs sa mr lim st
  refine ⟨⟨⟨_, _, rfl⟩, ⟨_, _, rfl⟩, ⟨_, _, rfl⟩, ⟨_, _, rfl⟩, ⟨_, _, rfl⟩,
    ⟨_, _, rfl⟩, ⟨_, _, rfl⟩, ⟨_, _, rfl⟩, ⟨_, _, rfl⟩, ⟨_, _, rfl⟩,
    ⟨_, _, rfl⟩, ⟨_, _, rfl⟩, ⟨_, _, rfl⟩, ⟨_, _, rfl⟩, ⟨_, _, rfl⟩,
    ⟨_, _, rfl⟩, ⟨_, _, rfl⟩, ⟨_, _, rfl⟩, ⟨_, _, rfl⟩⟩, ?_, ?_⟩
  · intro h
    have hc := jiraGetClient_missing jc h
    refine ⟨?_, ?_, ?_, ?_, ?_, ?_, ?_, ?_, ?_, ?_⟩
    · refine ⟨_, ?_, containsAuth_j ("Failed to get issue " ++ k ++ ": ")⟩
      unfold JiraTools.get_issue_env
      rw [hc]
      rfl
    · refine ⟨_, ?_, containsAuth_j "Failed to search issues: "⟩
      unfold JiraTools.search_issues_env
      rw [hc]
      rfl
    · refine ⟨_, ?_, containsAuth_j "Failed to create issue: "⟩
      unfold JiraTools.create_issue_env
      rw [hc]
      rfl
    · refine ⟨_, ?_, containsAuth_j ("Failed to update issue " ++ k ++ ": ")⟩
      unfold JiraTools.update_issue_env
      rw [hc]
      rfl
    · refine ⟨_, ?_, containsAuth_j ("Failed to delete issue " ++ k ++ ": ")⟩
      unfold JiraTools.delete_issue_env
      rw [hc]
      rfl
    · refine ⟨_, ?_,
        containsAuth_j ("Failed to add comment to issue " ++ k ++ ": ")⟩
      unfold JiraTools.add_comment_env
      rw [hc]
      rfl
    · refine ⟨_, ?_,
        containsAuth_j ("Failed to get transitions for issue " ++ k ++ ": ")⟩
      unfold JiraTools.get_transitions_env
      rw [hc]
      rfl
    · refine ⟨_, ?_,
        containsAuth_j ("Failed to transition issue " ++ k ++ ": ")⟩
      unfold JiraTools.transition_issue_env
      rw [hc]
      rfl
    · refine ⟨_, ?_, containsAuth_j "Failed to get projects: "⟩
      unfold JiraTools.get_projects_env
      rw [hc]
      rfl
    · refine ⟨jiraAuthMsg, ?_, containsAuth_base_j⟩
      unfold JiraTools.get_user_profile_env
      rw [hc]
      rfl
  · intro h
    have hc := confluenceGetClient_missing cc h
    refine ⟨?_, ?_, ?_, ?_, ?_, ?_, ?_, ?_, ?_⟩
    · refine ⟨_, ?_, containsAuth_c "Failed to search Confluence: "⟩
      unfold ConfluenceTools.search_env
      rw [hc]
      rfl
    · refine ⟨_, ?_, containsAuth_c "Failed to get page: "⟩
      unfold ConfluenceTools.get_page_env
      rw [hc]
      rfl
    · refine ⟨_, ?_, containsAuth_c "Failed to create page: "⟩
      unfold ConfluenceTools.create_page_env
      rw [hc]
      rfl
    · refine ⟨_, ?_, containsAuth_c ("Failed to update page " ++ pid ++ ": ")⟩
      unfold ConfluenceTools.update_page_env
      rw [hc]
      rfl
    · refine ⟨confluenceAuthMsg, ?_, containsAuth_base_c⟩
      unfold ConfluenceTools.delete_page_env
      rw [hc]
      rfl
    · refine ⟨confluenceAuthMsg, ?_, containsAuth_base_c⟩
      unfold ConfluenceTools.add_comment_env
      rw [hc]
      rfl
    · refine ⟨_, ?_, containsAuth_c "Failed to get child pages: "⟩
      unfold ConfluenceTools.get_page_children_env
      rw [hc]
      rfl
    · refine ⟨_, ?_, containsAuth_c "Failed to get labels: "⟩
      unfold ConfluenceTools.get_page_labels_env
      rw [hc]
      rfl
    · refine ⟨_, ?_, containsAuth_c "Failed to add label: "⟩
      unfold ConfluenceTools.add_page_label_env
      rw [hc]
      rfl

theorem claim_C1_witness :
    jiraMissingBoth { url := "https://x.atlassian.net" } = true ∧
    confluenceMissingBoth { url := "https://c.atlassian.net" } = true ∧
    envHasAuthError (JiraTools.get_issue_env (fun _ => .netError "down")
      { url := "https://x.atlassian.net" } "ABC-1" none none) ∧
    envHasAuthError (ConfluenceTools.search_env (fun _ => .netError "down")
      { url := "https://c.atlassian.net" } "hello" 25 0) := by
  have h := claim_C1 (fun _ => .netError "down")
    { url := "https://x.atlassian.net" } { url := "https://c.atlassian.net" }
    "ABC-1" "project = X" "PROJ" "S" "Task" "31" "u" "42" "L" "hello" "c"
    "SP" "T" "C" none none none none none none none none none
    (.obj []) none 0 50 25 0
  exact ⟨by decide, by decide, (h.2.1 (by decide)).1, (h.2.2 (by decide)).1⟩
